import Mathlib

/-!
Verification of the frame protocol engine of the `@aqo/websocket-protocol`
package (RFC 6455 WebSocket implementation).

The definitions below are a shallow embedding of the JavaScript source.
Bytes are modelled as `Nat` (every inbound byte is `< 256`; the XOR and
arithmetic below never rely on an upper bound).  Buffers are `List Nat`.
The per-connection mutable variables of `WebSocketConnection` become the
fields of the `Conn` structure, and every callback invocation or socket
operation performed by the connection is recorded as an event in an event
trace, in execution order:

  * `Ev.sync`        — the `onSync` callback fired (start of `onData`);
  * `Ev.text b`      — the `onTextMessage` callback fired with a string
                       whose UTF-8 bytes are `b`;
  * `Ev.binary b`    — the `onBinaryMessage` callback fired with buffer `b`;
  * `Ev.endCb a c`   — the `onEnd` callback fired with app code `a` and
                       status code `c`;
  * `Ev.wrote b`     — `socket.write(b)`;
  * `Ev.socketEnd`   — `socket.end()` (half-close);
  * `Ev.pongRecv`    — a pong frame was dispatched (the source does nothing
                       beyond the `lastSyncDate` update; the event only
                       makes the dispatch observable in the trace).

The model treats every callback slot as installed; an event records that
the corresponding callback would be invoked.  `lastSyncDate` (wall-clock
time) is not modelled; its update is exactly the `Ev.sync` event.
-/

/-- Observable events of a `WebSocketConnection` (see module comment). -/
inductive Ev where
  | sync
  | text (bytes : List Nat)
  | binary (bytes : List Nat)
  | endCb (appCode : String) (statusCode : Nat)
  | wrote (bytes : List Nat)
  | socketEnd
  | pongRecv
deriving DecidableEq

/-- The mutable state of a `WebSocketConnection` closure (source lines
360-398).  `payloadBuffers` is the array of buffers accumulated for the
current message; the source only ever observes it through `Buffer.concat`
(and resets it to `[]`), so it is embedded as the concatenated byte list.
`maskingKey` is `null` in the source when absent; this is embedded as `[]`. -/
structure Conn where
  isPeerMaskingRequired : Bool
  toMaskOwnMessages : Bool
  isAlive : Bool
  isReadingMessage : Bool
  isFinSet : Bool
  isMasked : Bool
  payloadOpCode : Nat
  maskingKey : List Nat
  maskingIndex : Nat
  remainingLength : Nat
  payloadBuffers : List Nat
deriving DecidableEq

def OPCODE_CONTINUATION_FRAME : Nat := 0x0

def OPCODE_TEXT_FRAME : Nat := 0x1

def OPCODE_BINARY_FRAME : Nat := 0x2

def OPCODE_CONNECTION_CLOSE : Nat := 0x8

def OPCODE_PING : Nat := 0x9

def OPCODE_PONG : Nat := 0xA

def MASKING_KEY_SIZE : Nat := 4

/-- UTF-8 encoding of one Unicode code point (model of Node's utf8 encoder). -/
def utf8EncodeCharNat (c : Nat) : List Nat :=
  if c < 0x80 then [c]
  else if c < 0x800 then [0xC0 + c / 64, 0x80 + c % 64]
  else if c < 0x10000 then [0xE0 + c / 4096, 0x80 + c / 64 % 64, 0x80 + c % 64]
  else [0xF0 + c / 262144, 0x80 + c / 4096 % 64, 0x80 + c / 64 % 64, 0x80 + c % 64]

/-- Model of `Buffer.from(string, 'utf8')`: the UTF-8 bytes of a string. -/
def utf8Bytes (string : String) : List Nat :=
  (string.data.map (fun c => utf8EncodeCharNat c.toNat)).flatten

/-- Model of `buffer.writeUInt16BE(n)`: the two big-endian bytes of `n`. -/
def writeUInt16BE (n : Nat) : List Nat := [n / 2 ^ 8 % 256, n % 256]

/-- Model of `buffer.writeBigUInt64BE(n)`: the eight big-endian bytes of `n`. -/
def writeBigUInt64BE (n : Nat) : List Nat :=
  [n / 2 ^ 56 % 256, n / 2 ^ 48 % 256, n / 2 ^ 40 % 256, n / 2 ^ 32 % 256,
   n / 2 ^ 24 % 256, n / 2 ^ 16 % 256, n / 2 ^ 8 % 256, n % 256]

/-- Model of `buffer.readUInt16BE(offset)`. -/
def readUInt16BE (buffer : List Nat) (offset : Nat) : Nat :=
  buffer.getD offset 0 * 2 ^ 8 + buffer.getD (offset + 1) 0

/-- Model of `Number(buffer.readBigUInt64BE(offset))`.  (Node buffers are
far smaller than `2 ^ 53`, so the `Number` conversion is exact on every
reachable value; the model reads the integer exactly.) -/
def readBigUInt64BE (buffer : List Nat) (offset : Nat) : Nat :=
  buffer.getD offset 0 * 2 ^ 56 + buffer.getD (offset + 1) 0 * 2 ^ 48 +
  buffer.getD (offset + 2) 0 * 2 ^ 40 + buffer.getD (offset + 3) 0 * 2 ^ 32 +
  buffer.getD (offset + 4) 0 * 2 ^ 24 + buffer.getD (offset + 5) 0 * 2 ^ 16 +
  buffer.getD (offset + 6) 0 * 2 ^ 8 + buffer.getD (offset + 7) 0

/-- The masking loop of `createMessageFrame` (source lines 350-352):
`payload[i] = payload[i] ^ maskingKey[i % MASKING_KEY_SIZE]`, starting at
index `i`. -/
def maskLoop (maskingKey : List Nat) (i : Nat) : List Nat → List Nat
  | [] => []
  | b :: rest =>
    (b ^^^ maskingKey.getD (i % MASKING_KEY_SIZE) 0) :: maskLoop maskingKey (i + 1) rest

/-- The full masking transform applied by `createMessageFrame`. -/
def maskBytes (maskingKey : List Nat) (payload : List Nat) : List Nat :=
  maskLoop maskingKey 0 payload

/-- The unmasking loop of `readDataFramePayload` (source lines 565-568):
XORs each byte with `maskingKey[maskingIndex]` and advances `maskingIndex`
modulo `MASKING_KEY_SIZE`; returns the transformed bytes together with the
final `maskingIndex`. -/
def unmaskLoop (maskingKey : List Nat) : Nat → List Nat → List Nat × Nat
  | maskingIndex, [] => ([], maskingIndex)
  | maskingIndex, b :: rest =>
    let r := unmaskLoop maskingKey ((maskingIndex + 1) % MASKING_KEY_SIZE) rest
    ((b ^^^ maskingKey.getD (maskingIndex % MASKING_KEY_SIZE) 0) :: r.1, r.2)

/-- Streaming unmasking of a sequence of transport chunks: each chunk is
unmasked by `unmaskLoop`, carrying the running `maskingIndex` from one
chunk to the next, exactly as the parser does. -/
def unmaskChunks (maskingKey : List Nat) (maskingIndex : Nat) :
    List (List Nat) → List Nat
  | [] => []
  | chunk :: rest =>
    let u := unmaskLoop maskingKey maskingIndex chunk
    u.1 ++ unmaskChunks maskingKey u.2 rest

/-- `createMessageFrame` (source lines 329-358).  The masking key is drawn
from `Crypto.randomBytes` in the source; the model takes it as an explicit
argument (it is only used when `toMask` is set). -/
def createMessageFrame (opCode : Nat) (payload : List Nat) (toMask : Bool)
    (maskingKey : List Nat) : List Nat :=
  let length := payload.length
  let maskBit := if toMask then 2 ^ 7 else 0
  let header :=
    if length < 126 then [2 ^ 7 + opCode, maskBit + length]
    else if length < 2 ^ 16 then [2 ^ 7 + opCode, maskBit + 126] ++ writeUInt16BE length
    else [2 ^ 7 + opCode, maskBit + 127] ++ writeBigUInt64BE length
  if toMask then header ++ maskingKey ++ maskBytes maskingKey payload
  else header ++ payload

/-- `createTextFrame` (source lines 317-319). -/
def createTextFrame (string : String) (toMask : Bool) (maskingKey : List Nat) : List Nat :=
  createMessageFrame OPCODE_TEXT_FRAME (utf8Bytes string) toMask maskingKey

/-- `createBinaryFrame` (source lines 321-323). -/
def createBinaryFrame (buffer : List Nat) (toMask : Bool) (maskingKey : List Nat) : List Nat :=
  createMessageFrame OPCODE_BINARY_FRAME buffer toMask maskingKey

/-- `createCloseFrame` (source lines 325-327): the payload is the decimal
string of the status code. -/
def createCloseFrame (code : Nat) (toMask : Bool) (maskingKey : List Nat) : List Nat :=
  createMessageFrame OPCODE_CONNECTION_CLOSE (utf8Bytes (toString code)) toMask maskingKey

/-- `createHeaderOnlyUnmaskedFrame` (source lines 309-311). -/
def createHeaderOnlyUnmaskedFrame (opCode : Nat) : List Nat := [2 ^ 7 + opCode, 0]

/-- `createHeaderOnlyMaskedFrame` (source lines 313-315): all-zero masking key. -/
def createHeaderOnlyMaskedFrame (opCode : Nat) : List Nat :=
  [2 ^ 7 + opCode, 2 ^ 7, 0, 0, 0, 0]

def FRAME_DATA_PING_UNMASKED : List Nat := createHeaderOnlyUnmaskedFrame OPCODE_PING

def FRAME_DATA_PONG_UNMASKED : List Nat := createHeaderOnlyUnmaskedFrame OPCODE_PONG

def FRAME_DATA_PING_MASKED : List Nat := createHeaderOnlyMaskedFrame OPCODE_PING

def FRAME_DATA_PONG_MASKED : List Nat := createHeaderOnlyMaskedFrame OPCODE_PONG

/-- The connection's cached ping frame (source line 383). -/
def frameDataPing (s : Conn) : List Nat :=
  if s.toMaskOwnMessages then FRAME_DATA_PING_MASKED else FRAME_DATA_PING_UNMASKED

/-- The connection's cached pong frame (source line 384). -/
def frameDataPong (s : Conn) : List Nat :=
  if s.toMaskOwnMessages then FRAME_DATA_PONG_MASKED else FRAME_DATA_PONG_UNMASKED

/-- Stand-in for the `Crypto.randomBytes` masking key drawn inside
`dropConnection`'s close frame.  Its value never influences control flow,
state, or any delivered payload, so the model fixes it. -/
def randomKeyModel : List Nat := [0, 0, 0, 0]

/-- `dropConnection` (source lines 610-620): idempotent terminal routine.
If the connection is already dead it returns with no effect; otherwise it
clears `isAlive`, writes a close frame, half-closes the socket, and fires
the `onEnd` callback. -/
def dropConnection (s : Conn) (statusCode : Nat) (appCode : String) : Conn × List Ev :=
  if s.isAlive = false then (s, [])
  else ({ s with isAlive := false },
    [Ev.wrote (createCloseFrame statusCode s.toMaskOwnMessages randomKeyModel),
     Ev.socketEnd, Ev.endCb appCode statusCode])

/-- `onFrameComplete` (source lines 584-608): fires the text or binary
message callback with the accumulated payload and resets the message
state. -/
def onFrameComplete (s : Conn) : Conn × List Ev :=
  let evs : List Ev :=
    if s.payloadOpCode = OPCODE_BINARY_FRAME then [Ev.binary s.payloadBuffers]
    else if s.payloadOpCode = OPCODE_TEXT_FRAME then [Ev.text s.payloadBuffers]
    else []
  ({ s with isReadingMessage := false, payloadBuffers := [] }, evs)

/-- The pre-dispatch part of `readDataFrameHeader` (source lines 465-530):
length guard, fin/rsv/opcode byte, mask bit and mandatory-masking guard,
extended payload length, masking key.  The frame-state fields (`isFinSet`,
`isMasked`, `maskingKey`) are assigned in source order, so a failing guard
still returns the assignments made before it.  Returns either the drop
`(statusCode, appCode)` or `(opCode, payloadLength, nextBufferIndex)`. -/
def parseHeaderPre (s : Conn) (buffer : List Nat) :
    Conn × (Nat × String) ⊕ Conn × (Nat × Nat × Nat) :=
  let length := buffer.length
  if length < 2 then Sum.inl (s, (1002, "ERR_INAVLID_DATA_FRAME_H2"))
  else
    let byte0 := buffer.getD 0 0
    let s1 := { s with isFinSet := decide (byte0 &&& 2 ^ 7 ≠ 0) }
    if byte0 &&& 2 ^ 6 ≠ 0 ∨ byte0 &&& 2 ^ 5 ≠ 0 ∨ byte0 &&& 2 ^ 4 ≠ 0 then
      Sum.inl (s1, (1003, "INVALID_EXTENSION"))
    else
      let opCode := byte0 &&& (2 ^ 4 - 1)
      let byte1 := buffer.getD 1 0
      let s2 := { s1 with isMasked := decide (byte1 &&& 2 ^ 7 ≠ 0) }
      if s2.isPeerMaskingRequired = true ∧ s2.isMasked = false then
        Sum.inl (s2, (1008, "ERR_PEER_MASKING_DISABLED"))
      else
        let payloadLength7 := byte1 &&& (2 ^ 7 - 1)
        let ext : (Nat × String) ⊕ (Nat × Nat) :=
          if payloadLength7 = 126 then
            if length < 4 then Sum.inl (1002, "ERR_INAVLID_DATA_FRAME_P16")
            else Sum.inr (readUInt16BE buffer 2, 4)
          else if payloadLength7 = 127 then
            if length < 10 then Sum.inl (1002, "ERR_INAVLID_DATA_FRAME_P64")
            else Sum.inr (readBigUInt64BE buffer 2, 10)
          else Sum.inr (payloadLength7, 2)
        match ext with
        | Sum.inl e => Sum.inl (s2, e)
        | Sum.inr (payloadLength, nextBufferIndex) =>
          if s2.isMasked = true then
            if length < nextBufferIndex + MASKING_KEY_SIZE then
              Sum.inl (s2, (1002, "ERR_MASKING_KEY_MISSING"))
            else
              Sum.inr
                ({ s2 with maskingKey := (buffer.drop nextBufferIndex).take MASKING_KEY_SIZE },
                 (opCode, payloadLength, nextBufferIndex + MASKING_KEY_SIZE))
          else Sum.inr (s2, (opCode, payloadLength, nextBufferIndex))

mutual

/-- `readDataFrameHeader` (source lines 465-557): header parse followed by
the opcode dispatch.  A close frame drops the connection immediately; ping
and pong return without consuming the rest of the chunk; data frames fall
through into `readDataFramePayload` on the remainder of the chunk. -/
def readDataFrameHeader (s : Conn) (buffer : List Nat) : Conn × List Ev :=
  match h : parseHeaderPre s buffer with
  | Sum.inl (s1, e) => dropConnection s1 e.1 e.2
  | Sum.inr (s1, (opCode, payloadLength, nextBufferIndex)) =>
    if opCode = OPCODE_CONNECTION_CLOSE then dropConnection s1 1000 "CLOSED_BY_PEER"
    else if opCode = OPCODE_CONTINUATION_FRAME then
      if s1.isReadingMessage = false then dropConnection s1 1002 "ERR_BAD_CONTINUE_OPCODE"
      else readDataFramePayload
        { s1 with maskingIndex := 0, remainingLength := payloadLength }
        (buffer.drop nextBufferIndex)
    else if opCode = OPCODE_TEXT_FRAME ∨ opCode = OPCODE_BINARY_FRAME then
      if s1.isReadingMessage = true then dropConnection s1 1002 "ERR_BAD_DATA_OPCODE"
      else readDataFramePayload
        { s1 with
          isReadingMessage := true
          payloadOpCode := opCode
          payloadBuffers := []
          maskingIndex := 0
          remainingLength := payloadLength }
        (buffer.drop nextBufferIndex)
    else if opCode = OPCODE_PING then (s1, [Ev.wrote (frameDataPong s1)])
    else if opCode = OPCODE_PONG then (s1, [Ev.pongRecv])
    else dropConnection s1 1003 "ERR_UNSUPPORTED_OPCODE"
termination_by 2 * buffer.length
decreasing_by
  all_goals
    have hb : 2 <= nextBufferIndex ∧ nextBufferIndex <= buffer.length := by
      unfold parseHeaderPre at h
      by_cases h2 : buffer.length < 2
      . simp [h2] at h
      . simp only [h2, if_false] at h
        split at h
        . simp at h
        . split at h
          . simp at h
          . split at h <;> rename_i hext
            . simp at h
            . rename_i pl ni
              have hni : 2 <= ni ∧ ni <= buffer.length := by
                split at hext
                . split at hext
                  . simp at hext
                  . simp only [Sum.inr.injEq, Prod.mk.injEq] at hext
                    omega
                . split at hext
                  . split at hext
                    . simp at hext
                    . simp only [Sum.inr.injEq, Prod.mk.injEq] at hext
                      omega
                  . simp only [Sum.inr.injEq, Prod.mk.injEq] at hext
                    omega
              split at h
              . split at h
                . simp at h
                . rename_i hlen
                  simp only [Sum.inr.injEq, Prod.mk.injEq] at h
                  simp only [not_lt, MASKING_KEY_SIZE] at hlen
                  simp only [MASKING_KEY_SIZE] at h
                  omega
              . simp only [Sum.inr.injEq, Prod.mk.injEq] at h
                omega
    simp only [List.length_drop]
    omega

/-- `readDataFramePayload` (source lines 559-582): consume
`min (buffer length) remainingLength` bytes, unmasking in place when the
frame is masked; on reaching the frame boundary fire `onFrameComplete` if
`fin` was set, and if bytes remain in the chunk loop back to the header
parser. -/
def readDataFramePayload (s : Conn) (buffer : List Nat) : Conn × List Ev :=
  let byteLength := buffer.length
  let length := min byteLength s.remainingLength
  let um := if s.isMasked = true then unmaskLoop s.maskingKey s.maskingIndex (buffer.take length)
            else (buffer.take length, s.maskingIndex)
  let s1 := { s with
    maskingIndex := um.2
    payloadBuffers := s.payloadBuffers ++ um.1
    remainingLength := s.remainingLength - length }
  if s1.remainingLength = 0 then
    let fc := if s1.isFinSet = true then onFrameComplete { s1 with maskingKey := [] }
              else (s1, [])
    if length < byteLength then
      let r := readDataFrameHeader fc.1 (buffer.drop length)
      (r.1, fc.2 ++ r.2)
    else fc
  else (s1, [])
termination_by 2 * buffer.length + 1
decreasing_by
  simp only [List.length_drop]
  omega

end

/-- The dispatch of `onData` (source lines 456-460): a chunk continues the
current frame's payload when `remainingLength` is nonzero, and is parsed as
a frame header otherwise. -/
def dispatchData (s : Conn) (buffer : List Nat) : Conn × List Ev :=
  if s.remainingLength = 0 then readDataFrameHeader s buffer
  else readDataFramePayload s buffer

/-- `onData` (source lines 450-461): fires the sync callback, then parses
the chunk. -/
def onData (s : Conn) (buffer : List Nat) : Conn × List Ev :=
  let d := dispatchData s buffer
  (d.1, Ev.sync :: d.2)

/-- Feeding a sequence of transport chunks to a connection, concatenating
the event traces. -/
def runChunks (s : Conn) : List (List Nat) → Conn × List Ev
  | [] => (s, [])
  | chunk :: rest =>
    let d := onData s chunk
    let r := runChunks d.1 rest
    (r.1, d.2 ++ r.2)

/-- The initial state built by the `WebSocketConnection` constructor
(source lines 360-398). -/
def WebSocketConnection (isPeerMaskingRequired toMaskOwnMessages : Bool) : Conn :=
  { isPeerMaskingRequired := isPeerMaskingRequired
    toMaskOwnMessages := toMaskOwnMessages
    isAlive := true
    isReadingMessage := false
    isFinSet := false
    isMasked := false
    payloadOpCode := 0x0
    maskingKey := []
    maskingIndex := 0
    remainingLength := 0
    payloadBuffers := [] }

/-- A server-role connection (source lines 269-273): peers must mask, own
messages are not masked. -/
def serverConnection : Conn := WebSocketConnection true false

/-- A client-role connection (source lines 176-180): peers need not mask,
own messages are masked. -/
def clientConnection : Conn := WebSocketConnection false true

/-- `sendTextMessage` (source lines 432-434).  The masking key used when
the connection masks its own messages is passed explicitly (drawn from
`Crypto.randomBytes` in the source). -/
def sendTextMessage (s : Conn) (string : String) (maskingKey : List Nat) : Conn × List Ev :=
  (s, [Ev.wrote (createTextFrame string s.toMaskOwnMessages maskingKey)])

/-- `sendBinaryMessage` (source lines 436-438). -/
def sendBinaryMessage (s : Conn) (buffer : List Nat) (maskingKey : List Nat) : Conn × List Ev :=
  (s, [Ev.wrote (createBinaryFrame buffer s.toMaskOwnMessages maskingKey)])

/-- `sendPing` (source lines 440-442): writes the cached ping frame. -/
def sendPing (s : Conn) : Conn × List Ev :=
  (s, [Ev.wrote (frameDataPing s)])

/-- The public `end` operation (source line 412). -/
def endConnection (s : Conn) : Conn × List Ev :=
  dropConnection s 1000 "CLOSED_BY_SELF"

/-- One host- or transport-side step of a connection execution. -/
inductive Op where
  | chunk (buffer : List Nat)
  | sendText (string : String) (maskingKey : List Nat)
  | sendBinary (buffer : List Nat) (maskingKey : List Nat)
  | ping
  | endApi
deriving DecidableEq

/-- Interpreting one execution step. -/
def runOp (s : Conn) : Op → Conn × List Ev
  | Op.chunk buffer => onData s buffer
  | Op.sendText string maskingKey => sendTextMessage s string maskingKey
  | Op.sendBinary buffer maskingKey => sendBinaryMessage s buffer maskingKey
  | Op.ping => sendPing s
  | Op.endApi => endConnection s

/-- An execution of a connection: a sequence of steps, with the event
traces concatenated. -/
def runOps (s : Conn) : List Op → Conn × List Ev
  | [] => (s, [])
  | op :: rest =>
    let d := runOp s op
    let r := runOps d.1 rest
    (r.1, d.2 ++ r.2)

/-- Number of `onEnd` invocations in a trace. -/
def countEnd (trace : List Ev) : Nat :=
  trace.countP (fun e => match e with | Ev.endCb _ _ => true | _ => false)

/-- The callbacks a trace delivers to the host: text, binary and end
events (the per-chunk sync callback and socket writes are not message
deliveries). -/
def deliveredCallbacks (trace : List Ev) : List Ev :=
  trace.filter (fun e =>
    match e with
    | Ev.text _ => true
    | Ev.binary _ => true
    | Ev.endCb _ _ => true
    | _ => false)

/-- A trace is clean when parsing ran through data frames only: no drop
(close-frame write, half-close, end callback), no ping reply and no pong
dispatch occurred. -/
def cleanTrace (trace : List Ev) : Bool :=
  trace.all (fun e =>
    match e with
    | Ev.sync => true
    | Ev.text _ => true
    | Ev.binary _ => true
    | _ => false)

/-- `intermediatesOk s chunks` holds when, feeding `chunks` successively,
every chunk before the last leaves the connection alive and produces a
clean trace (no drop and no control-frame dispatch, whose early `return`
discards the rest of a chunk). -/
def intermediatesOk (s : Conn) : List (List Nat) → Bool
  | [] => true
  | [_] => true
  | chunk :: rest =>
    let d := onData s chunk
    d.1.isAlive && cleanTrace d.2 && intermediatesOk d.1 rest

/-- The scheme test of `createClientConnection` (source line 55). -/
def isHttps (protocol : String) : Bool := protocol = "https:"

/-- The port inference of `createClientConnection` (source line 56): an
explicit URL port wins; otherwise the default depends only on whether the
scheme is `https:`.  The URL port component is modelled as `Option Nat`
(`none` for the empty string). -/
def inferredPort (protocol : String) (port : Option Nat) : Nat :=
  match port with
  | some p => p
  | none => if isHttps protocol then 433 else 80

/-- The unmasking `if` of `readDataFramePayload` (source lines 564-569) as
a function of the state: the consumed (possibly unmasked) piece together
with the updated masking index. -/
def unmaskedPiece (s : Conn) (bytes : List Nat) : List Nat × Nat :=
  if s.isMasked = true then unmaskLoop s.maskingKey s.maskingIndex bytes
  else (bytes, s.maskingIndex)

/-- The state and events of `readDataFramePayload` at the moment the
current frame's payload is exhausted (before any loop back to the header
parser): payload piece pushed, `remainingLength` zero, and
`onFrameComplete` fired when `fin` was set. -/
def payloadBoundaryState (s : Conn) (buffer : List Nat) : Conn × List Ev :=
  let piece := unmaskedPiece s (buffer.take s.remainingLength)
  let s1 : Conn := { s with
    maskingIndex := piece.2
    payloadBuffers := s.payloadBuffers ++ piece.1
    remainingLength := 0 }
  if s1.isFinSet = true then onFrameComplete { s1 with maskingKey := [] } else (s1, [])

/-- A masked close frame with empty payload (opcode 0x8, all-zero key). -/
def closeChunk : List Nat := [0x88, 0x80, 0x00, 0x00, 0x00, 0x00]

/-- A masked close frame carrying a 2-byte payload that decodes to status
code 0x03e8 = 1000 (spec scenario 3). -/
def closeChunkWithCode : List Nat := [0x88, 0x82, 0x00, 0x00, 0x00, 0x00, 0x03, 0xe8]

/-- A masked ping frame with empty payload (opcode 0x9, all-zero key). -/
def pingChunk : List Nat := [0x89, 0x80, 0x00, 0x00, 0x00, 0x00]

/-- A masked continuation frame with empty payload (opcode 0x0). -/
def continuationChunk : List Nat := [0x80, 0x80, 0x00, 0x00, 0x00, 0x00]

/-- The first six bytes of `helloChunk` (header and masking key). -/
def helloChunkA : List Nat := [0x81, 0x85, 0x37, 0xfa, 0x21, 0x3d]

/-- The last five bytes of `helloChunk` (the masked payload). -/
def helloChunkB : List Nat := [0x7f, 0x9f, 0x4d, 0x51, 0x58]

/-- The connection state after the header (and masking key) of the Hello
frame have been parsed but none of its payload has arrived. -/
def helloPartial : Conn :=
  { serverConnection with
    isFinSet := true
    isMasked := true
    isReadingMessage := true
    payloadOpCode := OPCODE_TEXT_FRAME
    maskingKey := [0x37, 0xfa, 0x21, 0x3d]
    maskingIndex := 0
    remainingLength := 5
    payloadBuffers := [] }

/-- The connection state after the whole Hello frame has been processed. -/
def helloAfter : Conn :=
  { serverConnection with
    isFinSet := true
    isMasked := true
    isReadingMessage := false
    payloadOpCode := OPCODE_TEXT_FRAME
    maskingKey := []
    maskingIndex := 1
    remainingLength := 0
    payloadBuffers := [] }

/-- The server connection state after an inbound close frame dropped it. -/
def serverClosed : Conn :=
  { serverConnection with
    isAlive := false
    isFinSet := true
    isMasked := true
    maskingKey := [0x00, 0x00, 0x00, 0x00] }

/-- The RFC 5.7 masked "Hello" text frame. -/
def helloChunk : List Nat := [0x81, 0x85, 0x37, 0xfa, 0x21, 0x3d, 0x7f, 0x9f, 0x4d, 0x51, 0x58]

/-! ### Basic lemmas about the terminal routine, the frame-complete
routine and the header parser. -/

theorem dropConnection_isAlive (s : Conn) (c : Nat) (a : String) :
    (dropConnection s c a).1.isAlive = false := by
  unfold dropConnection
  split
  . rename_i h
    simpa using h
  . simp

theorem dropConnection_of_dead (s : Conn) (c : Nat) (a : String) (h : s.isAlive = false) :
    dropConnection s c a = (s, []) := by
  unfold dropConnection
  simp [h]

theorem dropConnection_of_alive (s : Conn) (c : Nat) (a : String) (h : s.isAlive = true) :
    dropConnection s c a =
      ({ s with isAlive := false },
       [Ev.wrote (createCloseFrame c s.toMaskOwnMessages randomKeyModel),
        Ev.socketEnd, Ev.endCb a c]) := by
  unfold dropConnection
  simp [h]

theorem cleanTrace_dropConnection (s : Conn) (c : Nat) (a : String) (h : s.isAlive = true) :
    cleanTrace (dropConnection s c a).2 = false := by
  rw [dropConnection_of_alive s c a h]
  simp [cleanTrace]

theorem countEnd_dropConnection (s : Conn) (c : Nat) (a : String) :
    countEnd (dropConnection s c a).2 = if s.isAlive = true then 1 else 0 := by
  unfold dropConnection
  split
  . rename_i h
    simp [h, countEnd]
  . rename_i h
    simp only [Bool.not_eq_false] at h
    simp [h, countEnd]

theorem countEnd_append (t1 t2 : List Ev) :
    countEnd (t1 ++ t2) = countEnd t1 + countEnd t2 := by
  simp [countEnd, List.countP_append]

theorem cleanTrace_append (t1 t2 : List Ev) :
    cleanTrace (t1 ++ t2) = (cleanTrace t1 && cleanTrace t2) := by
  simp [cleanTrace, List.all_append]

theorem deliveredCallbacks_append (t1 t2 : List Ev) :
    deliveredCallbacks (t1 ++ t2) = deliveredCallbacks t1 ++ deliveredCallbacks t2 := by
  simp [deliveredCallbacks, List.filter_append]

theorem onFrameComplete_state (s : Conn) :
    (onFrameComplete s).1 = { s with isReadingMessage := false, payloadBuffers := [] } := by
  unfold onFrameComplete
  simp

theorem onFrameComplete_countEnd (s : Conn) : countEnd (onFrameComplete s).2 = 0 := by
  unfold onFrameComplete
  split <;> simp [countEnd]

theorem onFrameComplete_clean (s : Conn) : cleanTrace (onFrameComplete s).2 = true := by
  unfold onFrameComplete
  split <;> simp [cleanTrace]

theorem parseHeaderPre_inr_bounds (s : Conn) (buffer : List Nat) (s1 : Conn)
    (opCode payloadLength nextBufferIndex : Nat)
    (h : parseHeaderPre s buffer = Sum.inr (s1, (opCode, payloadLength, nextBufferIndex))) :
    2 <= nextBufferIndex ∧ nextBufferIndex <= buffer.length := by
  unfold parseHeaderPre at h
  by_cases h2 : buffer.length < 2
  . simp [h2] at h
  . simp only [h2, if_false] at h
    split at h
    . simp at h
    . split at h
      . simp at h
      . split at h <;> rename_i hext
        . simp at h
        . rename_i pl ni
          have hni : 2 <= ni ∧ ni <= buffer.length := by
            split at hext
            . split at hext
              . simp at hext
              . simp only [Sum.inr.injEq, Prod.mk.injEq] at hext
                omega
            . split at hext
              . split at hext
                . simp at hext
                . simp only [Sum.inr.injEq, Prod.mk.injEq] at hext
                  omega
              . simp only [Sum.inr.injEq, Prod.mk.injEq] at hext
                omega
          split at h
          . split at h
            . simp at h
            . rename_i hlen
              simp only [Sum.inr.injEq, Prod.mk.injEq] at h
              simp only [not_lt, MASKING_KEY_SIZE] at hlen
              simp only [MASKING_KEY_SIZE] at h
              omega
          . simp only [Sum.inr.injEq, Prod.mk.injEq] at h
            omega

/-- The header parser only assigns the per-frame fields `isFinSet`,
`isMasked` and `maskingKey`; every other field of the state it returns is
unchanged. -/
theorem parseHeaderPre_inr_proj (s : Conn) (buffer : List Nat) (s1 : Conn)
    (r : Nat × Nat × Nat) (h : parseHeaderPre s buffer = Sum.inr (s1, r)) :
    s1.isPeerMaskingRequired = s.isPeerMaskingRequired ∧
    s1.toMaskOwnMessages = s.toMaskOwnMessages ∧
    s1.isAlive = s.isAlive ∧
    s1.isReadingMessage = s.isReadingMessage ∧
    s1.payloadOpCode = s.payloadOpCode ∧
    s1.maskingIndex = s.maskingIndex ∧
    s1.remainingLength = s.remainingLength ∧
    s1.payloadBuffers = s.payloadBuffers := by
  unfold parseHeaderPre at h
  by_cases h2 : buffer.length < 2
  . simp [h2] at h
  . simp only [h2, if_false] at h
    split at h
    . simp at h
    . split at h
      . simp at h
      . split at h
        . simp at h
        . split at h
          . split at h
            . simp at h
            . simp only [Sum.inr.injEq, Prod.mk.injEq] at h
              obtain hs := h.1
              subst hs
              simp
          . simp only [Sum.inr.injEq, Prod.mk.injEq] at h
            obtain hs := h.1
            subst hs
            simp

/-- Appending further transport bytes after a successfully parsed header
does not change the parse: every byte the parser reads lies within the
original buffer. -/
theorem parseHeaderPre_append (s : Conn) (a b : List Nat) (s1 : Conn)
    (r : Nat × Nat × Nat) (h : parseHeaderPre s a = Sum.inr (s1, r)) :
    parseHeaderPre s (a ++ b) = Sum.inr (s1, r) := by
  unfold parseHeaderPre at h ⊢
  by_cases h2 : a.length < 2
  . simp [h2] at h
  . have hlen : ¬(a ++ b).length < 2 := by
      simp only [List.length_append]
      omega
    have h2n : 2 ≤ a.length := by omega
    have hg0 : (a ++ b).getD 0 0 = a.getD 0 0 := List.getD_append a b 0 0 (by omega)
    have hg1 : (a ++ b).getD 1 0 = a.getD 1 0 := List.getD_append a b 0 1 (by omega)
    simp only [h2, if_false, hlen, hg0, hg1] at h ⊢
    clear hlen hg0 hg1
    split at h <;> rename_i hrsv
    . simp at h
    . simp only [hrsv, if_false]
      split at h <;> rename_i hmaskreq
      . simp at h
      . simp only [hmaskreq, if_false]
        split at h <;> rename_i hext
        . simp at h
        . rename_i pl ni
          have hext2 :
              (if a.getD 1 0 &&& 2 ^ 7 - 1 = 126 then
                if (a ++ b).length < 4 then
                  Sum.inl (1002, "ERR_INAVLID_DATA_FRAME_P16")
                else Sum.inr (readUInt16BE (a ++ b) 2, 4)
              else
                if a.getD 1 0 &&& 2 ^ 7 - 1 = 127 then
                  if (a ++ b).length < 10 then
                    Sum.inl (1002, "ERR_INAVLID_DATA_FRAME_P64")
                  else Sum.inr (readBigUInt64BE (a ++ b) 2, 10)
                else Sum.inr (a.getD 1 0 &&& 2 ^ 7 - 1, 2)) =
              Sum.inr (pl, ni) := by
            split at hext <;> rename_i h126
            . split at hext <;> rename_i hsz
              . simp at hext
              . simp only [not_lt] at hsz
                have h4ab : ¬(a ++ b).length < 4 := by
                  simp only [List.length_append]
                  omega
                simp only [h126, if_true, h4ab, if_false]
                rw [show readUInt16BE (a ++ b) 2 = readUInt16BE a 2 by
                  unfold readUInt16BE
                  rw [List.getD_append a b 0 2 (by omega), List.getD_append a b 0 3 (by omega)]]
                exact hext
            . split at hext <;> rename_i h127
              . split at hext <;> rename_i hsz
                . simp at hext
                . simp only [not_lt] at hsz
                  have h10ab : ¬(a ++ b).length < 10 := by
                    simp only [List.length_append]
                    omega
                  simp only [h126, if_false, h127, if_true, h10ab]
                  rw [show readBigUInt64BE (a ++ b) 2 = readBigUInt64BE a 2 by
                    unfold readBigUInt64BE
                    rw [List.getD_append a b 0 2 (by omega), List.getD_append a b 0 3 (by omega),
                      List.getD_append a b 0 4 (by omega), List.getD_append a b 0 5 (by omega),
                      List.getD_append a b 0 6 (by omega), List.getD_append a b 0 7 (by omega),
                      List.getD_append a b 0 8 (by omega), List.getD_append a b 0 9 (by omega)]]
                  exact hext
              . simp only [h126, if_false, h127]
                exact hext
          rw [hext2]
          split at h <;> rename_i hmasked
          . split at h <;> rename_i hkeylen
            . simp at h
            . simp only [not_lt, MASKING_KEY_SIZE] at hkeylen
              have h4 : ¬(a ++ b).length < ni + MASKING_KEY_SIZE := by
                simp only [List.length_append, MASKING_KEY_SIZE]
                omega
              have hni : ni ≤ a.length := by omega
              have htk : MASKING_KEY_SIZE ≤ (List.drop ni a).length := by
                simp only [List.length_drop, MASKING_KEY_SIZE]
                omega
              simp only [hmasked, if_true, h4, if_false,
                List.drop_append_of_le_length hni, List.take_append_of_le_length htk] at h ⊢
              exact h
          . simp only [Bool.not_eq_true] at hmasked
            simp only [hmasked, Bool.false_eq_true, if_false] at h ⊢
            exact h

/-! ### Step lemmas: one conditional rewrite per branch of the opcode
dispatch of `readDataFrameHeader`. -/

theorem readDataFrameHeader_inl (s : Conn) (buffer : List Nat) (s1 : Conn) (e : Nat × String)
    (h : parseHeaderPre s buffer = Sum.inl (s1, e)) :
    readDataFrameHeader s buffer = dropConnection s1 e.1 e.2 := by
  rw [readDataFrameHeader.eq_def]
  split
  . rename_i s2 e2 heq
    rw [h] at heq
    simp only [Sum.inl.injEq, Prod.mk.injEq] at heq
    rw [heq.1, heq.2]
  . rename_i s2 op2 pl2 ni2 heq
    rw [h] at heq
    simp at heq

theorem readDataFrameHeader_close (s : Conn) (buffer : List Nat) (s1 : Conn) (pl ni : Nat)
    (h : parseHeaderPre s buffer = Sum.inr (s1, (OPCODE_CONNECTION_CLOSE, pl, ni))) :
    readDataFrameHeader s buffer = dropConnection s1 1000 "CLOSED_BY_PEER" := by
  rw [readDataFrameHeader.eq_def]
  split
  . rename_i s2 e2 heq
    rw [h] at heq
    simp at heq
  . rename_i s2 op2 pl2 ni2 heq
    rw [h] at heq
    simp only [Sum.inr.injEq, Prod.mk.injEq] at heq
    obtain ha := heq.1
    obtain hb := heq.2.1
    obtain hc := heq.2.2.1
    obtain hd := heq.2.2.2
    subst ha
    subst hb
    subst hc
    subst hd
    simp

theorem readDataFrameHeader_contBad (s : Conn) (buffer : List Nat) (s1 : Conn) (pl ni : Nat)
    (h : parseHeaderPre s buffer = Sum.inr (s1, (OPCODE_CONTINUATION_FRAME, pl, ni)))
    (hr : s1.isReadingMessage = false) :
    readDataFrameHeader s buffer = dropConnection s1 1002 "ERR_BAD_CONTINUE_OPCODE" := by
  rw [readDataFrameHeader.eq_def]
  split
  . rename_i s2 e2 heq
    rw [h] at heq
    simp at heq
  . rename_i s2 op2 pl2 ni2 heq
    rw [h] at heq
    simp only [Sum.inr.injEq, Prod.mk.injEq] at heq
    obtain ha := heq.1
    obtain hb := heq.2.1
    obtain hc := heq.2.2.1
    obtain hd := heq.2.2.2
    subst ha
    subst hb
    subst hc
    subst hd
    simp [OPCODE_CONNECTION_CLOSE, OPCODE_CONTINUATION_FRAME, hr]

theorem readDataFrameHeader_contOk (s : Conn) (buffer : List Nat) (s1 : Conn) (pl ni : Nat)
    (h : parseHeaderPre s buffer = Sum.inr (s1, (OPCODE_CONTINUATION_FRAME, pl, ni)))
    (hr : s1.isReadingMessage = true) :
    readDataFrameHeader s buffer =
      readDataFramePayload { s1 with maskingIndex := 0, remainingLength := pl }
        (buffer.drop ni) := by
  rw [readDataFrameHeader.eq_def]
  split
  . rename_i s2 e2 heq
    rw [h] at heq
    simp at heq
  . rename_i s2 op2 pl2 ni2 heq
    rw [h] at heq
    simp only [Sum.inr.injEq, Prod.mk.injEq] at heq
    obtain ha := heq.1
    obtain hb := heq.2.1
    obtain hc := heq.2.2.1
    obtain hd := heq.2.2.2
    subst ha
    subst hb
    subst hc
    subst hd
    simp [OPCODE_CONNECTION_CLOSE, OPCODE_CONTINUATION_FRAME, hr]

theorem readDataFrameHeader_dataBad (s : Conn) (buffer : List Nat) (s1 : Conn) (op pl ni : Nat)
    (h : parseHeaderPre s buffer = Sum.inr (s1, (op, pl, ni)))
    (h1 : op = OPCODE_TEXT_FRAME ∨ op = OPCODE_BINARY_FRAME)
    (hr : s1.isReadingMessage = true) :
    readDataFrameHeader s buffer = dropConnection s1 1002 "ERR_BAD_DATA_OPCODE" := by
  rw [readDataFrameHeader.eq_def]
  split
  . rename_i s2 e2 heq
    rw [h] at heq
    simp at heq
  . rename_i s2 op2 pl2 ni2 heq
    rw [h] at heq
    simp only [Sum.inr.injEq, Prod.mk.injEq] at heq
    obtain ha := heq.1
    obtain hb := heq.2.1
    obtain hc := heq.2.2.1
    obtain hd := heq.2.2.2
    subst ha
    subst hb
    subst hc
    subst hd
    rcases h1 with rfl | rfl <;>
      simp [OPCODE_CONNECTION_CLOSE, OPCODE_CONTINUATION_FRAME, OPCODE_TEXT_FRAME,
        OPCODE_BINARY_FRAME, hr]

theorem readDataFrameHeader_dataOk (s : Conn) (buffer : List Nat) (s1 : Conn) (op pl ni : Nat)
    (h : parseHeaderPre s buffer = Sum.inr (s1, (op, pl, ni)))
    (h1 : op = OPCODE_TEXT_FRAME ∨ op = OPCODE_BINARY_FRAME)
    (hr : s1.isReadingMessage = false) :
    readDataFrameHeader s buffer =
      readDataFramePayload
        { s1 with
          isReadingMessage := true
          payloadOpCode := op
          payloadBuffers := []
          maskingIndex := 0
          remainingLength := pl }
        (buffer.drop ni) := by
  rw [readDataFrameHeader.eq_def]
  split
  . rename_i s2 e2 heq
    rw [h] at heq
    simp at heq
  . rename_i s2 op2 pl2 ni2 heq
    rw [h] at heq
    simp only [Sum.inr.injEq, Prod.mk.injEq] at heq
    obtain ha := heq.1
    obtain hb := heq.2.1
    obtain hc := heq.2.2.1
    obtain hd := heq.2.2.2
    subst ha
    subst hb
    subst hc
    subst hd
    rcases h1 with rfl | rfl <;>
      simp [OPCODE_CONNECTION_CLOSE, OPCODE_CONTINUATION_FRAME, OPCODE_TEXT_FRAME,
        OPCODE_BINARY_FRAME, hr]

theorem readDataFrameHeader_ping (s : Conn) (buffer : List Nat) (s1 : Conn) (pl ni : Nat)
    (h : parseHeaderPre s buffer = Sum.inr (s1, (OPCODE_PING, pl, ni))) :
    readDataFrameHeader s buffer = (s1, [Ev.wrote (frameDataPong s1)]) := by
  rw [readDataFrameHeader.eq_def]
  split
  . rename_i s2 e2 heq
    rw [h] at heq
    simp at heq
  . rename_i s2 op2 pl2 ni2 heq
    rw [h] at heq
    simp only [Sum.inr.injEq, Prod.mk.injEq] at heq
    obtain ha := heq.1
    obtain hb := heq.2.1
    obtain hc := heq.2.2.1
    obtain hd := heq.2.2.2
    subst ha
    subst hb
    subst hc
    subst hd
    simp [OPCODE_CONNECTION_CLOSE, OPCODE_CONTINUATION_FRAME, OPCODE_TEXT_FRAME,
      OPCODE_BINARY_FRAME, OPCODE_PING]

theorem readDataFrameHeader_pong (s : Conn) (buffer : List Nat) (s1 : Conn) (pl ni : Nat)
    (h : parseHeaderPre s buffer = Sum.inr (s1, (OPCODE_PONG, pl, ni))) :
    readDataFrameHeader s buffer = (s1, [Ev.pongRecv]) := by
  rw [readDataFrameHeader.eq_def]
  split
  . rename_i s2 e2 heq
    rw [h] at heq
    simp at heq
  . rename_i s2 op2 pl2 ni2 heq
    rw [h] at heq
    simp only [Sum.inr.injEq, Prod.mk.injEq] at heq
    obtain ha := heq.1
    obtain hb := heq.2.1
    obtain hc := heq.2.2.1
    obtain hd := heq.2.2.2
    subst ha
    subst hb
    subst hc
    subst hd
    simp [OPCODE_CONNECTION_CLOSE, OPCODE_CONTINUATION_FRAME, OPCODE_TEXT_FRAME,
      OPCODE_BINARY_FRAME, OPCODE_PING, OPCODE_PONG]

theorem readDataFrameHeader_unsupported (s : Conn) (buffer : List Nat) (s1 : Conn)
    (op pl ni : Nat)
    (h : parseHeaderPre s buffer = Sum.inr (s1, (op, pl, ni)))
    (h0 : op ≠ OPCODE_CONTINUATION_FRAME) (h1 : op ≠ OPCODE_TEXT_FRAME)
    (h2 : op ≠ OPCODE_BINARY_FRAME) (h8 : op ≠ OPCODE_CONNECTION_CLOSE)
    (h9 : op ≠ OPCODE_PING) (h10 : op ≠ OPCODE_PONG) :
    readDataFrameHeader s buffer = dropConnection s1 1003 "ERR_UNSUPPORTED_OPCODE" := by
  rw [readDataFrameHeader.eq_def]
  split
  . rename_i s2 e2 heq
    rw [h] at heq
    simp at heq
  . rename_i s2 op2 pl2 ni2 heq
    rw [h] at heq
    simp only [Sum.inr.injEq, Prod.mk.injEq] at heq
    obtain ha := heq.1
    obtain hb := heq.2.1
    obtain hc := heq.2.2.1
    obtain hd := heq.2.2.2
    subst ha
    subst hb
    subst hc
    subst hd
    simp [h0, h1, h2, h8, h9, h10]

/-! ### The masking transform: involution and streaming decomposition. -/

theorem maskLoop_involution (maskingKey : List Nat) (payload : List Nat) (i : Nat) :
    maskLoop maskingKey i (maskLoop maskingKey i payload) = payload := by
  induction payload generalizing i with
  | nil => rfl
  | cons b rest ih =>
    simp only [maskLoop, Nat.xor_cancel_right, List.cons.injEq, true_and]
    exact ih (i + 1)

theorem unmaskLoop_fst_eq_maskLoop (maskingKey : List Nat) (payload : List Nat) (i : Nat) :
    (unmaskLoop maskingKey (i % MASKING_KEY_SIZE) payload).1 = maskLoop maskingKey i payload := by
  induction payload generalizing i with
  | nil => rfl
  | cons b rest ih =>
    have h1 : i % MASKING_KEY_SIZE % MASKING_KEY_SIZE = i % MASKING_KEY_SIZE := by
      simp only [MASKING_KEY_SIZE]
      omega
    have h2 : (i % MASKING_KEY_SIZE + 1) % MASKING_KEY_SIZE = (i + 1) % MASKING_KEY_SIZE := by
      simp only [MASKING_KEY_SIZE]
      omega
    simp only [unmaskLoop, maskLoop, h1, h2, List.cons.injEq, true_and]
    exact ih (i + 1)

theorem unmaskLoop_append (maskingKey : List Nat) (a b : List Nat) (i : Nat) :
    unmaskLoop maskingKey i (a ++ b) =
      ((unmaskLoop maskingKey i a).1 ++ (unmaskLoop maskingKey (unmaskLoop maskingKey i a).2 b).1,
       (unmaskLoop maskingKey (unmaskLoop maskingKey i a).2 b).2) := by
  induction a generalizing i with
  | nil => simp [unmaskLoop]
  | cons x rest ih =>
    simp only [List.cons_append, unmaskLoop, List.cons.injEq, true_and]
    simp [ih]

theorem unmaskChunks_flatten (maskingKey : List Nat) (chunks : List (List Nat)) (i : Nat) :
    unmaskChunks maskingKey i chunks = (unmaskLoop maskingKey i chunks.flatten).1 := by
  induction chunks generalizing i with
  | nil => rfl
  | cons c rest ih =>
    simp only [List.flatten_cons, unmaskChunks, unmaskLoop_append, ih]

theorem unmaskLoop_maskBytes (maskingKey : List Nat) (payload : List Nat) :
    (unmaskLoop maskingKey 0 (maskBytes maskingKey payload)).1 = payload := by
  have h := unmaskLoop_fst_eq_maskLoop maskingKey (maskBytes maskingKey payload) 0
  rw [show (0 : Nat) % MASKING_KEY_SIZE = 0 from by simp [MASKING_KEY_SIZE]] at h
  rw [h, maskBytes, maskLoop_involution]


/-! ### Step lemmas for `readDataFramePayload`. -/

theorem readDataFramePayload_mid (s : Conn) (buffer : List Nat)
    (h : buffer.length < s.remainingLength) :
    readDataFramePayload s buffer =
      ({ s with
         maskingIndex := (unmaskedPiece s buffer).2
         payloadBuffers := s.payloadBuffers ++ (unmaskedPiece s buffer).1
         remainingLength := s.remainingLength - buffer.length }, []) := by
  have hmin : min buffer.length s.remainingLength = buffer.length :=
    Nat.min_eq_left (Nat.le_of_lt h)
  have hrem : ¬(s.remainingLength - buffer.length = 0) := by omega
  rw [readDataFramePayload.eq_def]
  simp [unmaskedPiece, hmin, hrem]

theorem readDataFramePayload_boundary (s : Conn) (buffer : List Nat)
    (h : s.remainingLength ≤ buffer.length) :
    readDataFramePayload s buffer =
      if s.remainingLength < buffer.length then
        ((readDataFrameHeader (payloadBoundaryState s buffer).1
            (buffer.drop s.remainingLength)).1,
         (payloadBoundaryState s buffer).2 ++
           (readDataFrameHeader (payloadBoundaryState s buffer).1
             (buffer.drop s.remainingLength)).2)
      else payloadBoundaryState s buffer := by
  rw [readDataFramePayload.eq_def]
  unfold payloadBoundaryState unmaskedPiece
  simp only [Nat.min_eq_right h, Nat.sub_self, if_true]

/-! ### Support lemmas for the payload phase of the append lemma. -/

theorem unmaskedPiece_congr (s t : Conn) (x : List Nat)
    (hm : t.isMasked = s.isMasked) (hk : t.maskingKey = s.maskingKey)
    (hi : t.maskingIndex = s.maskingIndex) :
    unmaskedPiece t x = unmaskedPiece s x := by
  unfold unmaskedPiece
  rw [hm, hk, hi]

theorem unmaskedPiece_append (s : Conn) (x y : List Nat) :
    unmaskedPiece s (x ++ y) =
      ((unmaskedPiece s x).1 ++
         (unmaskedPiece { s with maskingIndex := (unmaskedPiece s x).2 } y).1,
       (unmaskedPiece { s with maskingIndex := (unmaskedPiece s x).2 } y).2) := by
  unfold unmaskedPiece
  by_cases hm : s.isMasked = true
  . simp only [hm, if_true]
    rw [unmaskLoop_append]
  . simp only [hm]
    simp

theorem payloadBoundaryState_rem (s : Conn) (buffer : List Nat) :
    (payloadBoundaryState s buffer).1.remainingLength = 0 := by
  simp only [payloadBoundaryState]
  split
  . rw [onFrameComplete_state]
  . simp

theorem payloadBoundaryState_isAlive (s : Conn) (buffer : List Nat) :
    (payloadBoundaryState s buffer).1.isAlive = s.isAlive := by
  simp only [payloadBoundaryState]
  split
  . rw [onFrameComplete_state]
  . simp

theorem payloadBoundaryState_clean (s : Conn) (buffer : List Nat) :
    cleanTrace (payloadBoundaryState s buffer).2 = true := by
  simp only [payloadBoundaryState]
  split
  . rw [← onFrameComplete_clean]
  . simp [cleanTrace]

theorem payloadBoundaryState_take (s : Conn) (buffer : List Nat) :
    payloadBoundaryState s (buffer.take s.remainingLength) = payloadBoundaryState s buffer := by
  simp only [payloadBoundaryState]
  rw [List.take_take, Nat.min_self]

theorem payloadBoundaryState_append (s : Conn) (a b : List Nat)
    (hL : a.length < s.remainingLength) :
    payloadBoundaryState s (a ++ b) =
      payloadBoundaryState
        { s with
          maskingIndex := (unmaskedPiece s a).2
          payloadBuffers := s.payloadBuffers ++ (unmaskedPiece s a).1
          remainingLength := s.remainingLength - a.length } b := by
  unfold payloadBoundaryState
  have htake : (a ++ b).take s.remainingLength = a ++ b.take (s.remainingLength - a.length) := by
    rw [List.take_append_eq_append_take, List.take_of_length_le (Nat.le_of_lt hL)]
  rw [htake]
  rw [unmaskedPiece_append]
  have hc : unmaskedPiece { s with maskingIndex := (unmaskedPiece s a).2 }
        (b.take (s.remainingLength - a.length)) =
      unmaskedPiece
        { s with
          maskingIndex := (unmaskedPiece s a).2
          payloadBuffers := s.payloadBuffers ++ (unmaskedPiece s a).1
          remainingLength := s.remainingLength - a.length }
        (b.take (s.remainingLength - a.length)) := by
    apply unmaskedPiece_congr <;> rfl
  rw [hc]
  simp only [List.append_assoc]

/-! ### The chunk-composition ("append") lemma.

If parsing a chunk `a` leaves the connection alive and the produced trace
is clean (no drop, no ping reply, no pong dispatch — the dispatches whose
early `return` discards the rest of a chunk), then parsing `a ++ b` is the
same as parsing `a` and then feeding `b` as the next chunk. -/

theorem run_append (n : Nat) : ∀ (s : Conn) (a b : List Nat), b ≠ [] →
    ((2 * a.length ≤ n → (readDataFrameHeader s a).1.isAlive = true →
      cleanTrace (readDataFrameHeader s a).2 = true →
      readDataFrameHeader s (a ++ b) =
        ((dispatchData (readDataFrameHeader s a).1 b).1,
         (readDataFrameHeader s a).2 ++ (dispatchData (readDataFrameHeader s a).1 b).2)) ∧
     (2 * a.length + 1 ≤ n → (readDataFramePayload s a).1.isAlive = true →
      cleanTrace (readDataFramePayload s a).2 = true →
      readDataFramePayload s (a ++ b) =
        ((dispatchData (readDataFramePayload s a).1 b).1,
         (readDataFramePayload s a).2 ++ (dispatchData (readDataFramePayload s a).1 b).2))) := by
  induction n with
  | zero =>
    intro s a b hb
    constructor
    . intro hmeas hAlive hClean
      have ha : a = [] := by
        cases a with
        | nil => rfl
        | cons x rest => simp at hmeas
      subst ha
      have hinl : parseHeaderPre s [] =
          Sum.inl (s, (1002, "ERR_INAVLID_DATA_FRAME_H2")) := by
        unfold parseHeaderPre
        simp
      rw [readDataFrameHeader_inl _ _ _ _ hinl, dropConnection_isAlive] at hAlive
      simp at hAlive
    . intro hmeas
      omega
  | succ n ih =>
    intro s a b hb
    constructor
    . -- header phase
      intro hmeas hAlive hClean
      cases hpp : parseHeaderPre s a with
      | inl p =>
        obtain ⟨s1, e⟩ := p
        rw [readDataFrameHeader_inl _ _ _ _ hpp, dropConnection_isAlive] at hAlive
        simp at hAlive
      | inr p =>
        obtain ⟨s1, op, pl, ni⟩ := p
        have hppab := parseHeaderPre_append s a b s1 (op, pl, ni) hpp
        have hbounds := parseHeaderPre_inr_bounds s a s1 op pl ni hpp
        by_cases hop8 : op = OPCODE_CONNECTION_CLOSE
        . subst hop8
          rw [readDataFrameHeader_close _ _ _ _ _ hpp, dropConnection_isAlive] at hAlive
          simp at hAlive
        . by_cases hop0 : op = OPCODE_CONTINUATION_FRAME
          . subst hop0
            by_cases hrd : s1.isReadingMessage = true
            . rw [readDataFrameHeader_contOk _ _ _ _ _ hpp hrd] at hAlive hClean ⊢
              rw [readDataFrameHeader_contOk _ _ _ _ _ hppab hrd]
              rw [List.drop_append_of_le_length hbounds.2]
              exact (ih _ (a.drop ni) b hb).2
                (by simp only [List.length_drop]; omega) hAlive hClean
            . simp only [Bool.not_eq_true] at hrd
              rw [readDataFrameHeader_contBad _ _ _ _ _ hpp hrd, dropConnection_isAlive]
                at hAlive
              simp at hAlive
          . by_cases hop12 : op = OPCODE_TEXT_FRAME ∨ op = OPCODE_BINARY_FRAME
            . by_cases hrd : s1.isReadingMessage = true
              . rw [readDataFrameHeader_dataBad _ _ _ _ _ _ hpp hop12 hrd,
                  dropConnection_isAlive] at hAlive
                simp at hAlive
              . simp only [Bool.not_eq_true] at hrd
                rw [readDataFrameHeader_dataOk _ _ _ _ _ _ hpp hop12 hrd] at hAlive hClean ⊢
                rw [readDataFrameHeader_dataOk _ _ _ _ _ _ hppab hop12 hrd]
                rw [List.drop_append_of_le_length hbounds.2]
                exact (ih _ (a.drop ni) b hb).2
                  (by simp only [List.length_drop]; omega) hAlive hClean
            . by_cases hop9 : op = OPCODE_PING
              . subst hop9
                rw [readDataFrameHeader_ping _ _ _ _ _ hpp] at hClean
                simp [cleanTrace] at hClean
              . by_cases hop10 : op = OPCODE_PONG
                . subst hop10
                  rw [readDataFrameHeader_pong _ _ _ _ _ hpp] at hClean
                  simp [cleanTrace] at hClean
                . push_neg at hop12
                  rw [readDataFrameHeader_unsupported _ _ _ _ _ _ hpp hop0 hop12.1 hop12.2
                    hop8 hop9 hop10, dropConnection_isAlive] at hAlive
                  simp at hAlive
    . -- payload phase
      intro hmeas hAlive hClean
      have hB : 0 < b.length := List.length_pos.mpr hb
      rcases le_or_lt s.remainingLength a.length with hRL | hRL
      . -- the frame boundary lies inside `a`
        have hab : s.remainingLength ≤ (a ++ b).length := by
          simp only [List.length_append]
          omega
        rw [readDataFramePayload_boundary s a hRL] at hAlive hClean ⊢
        rw [readDataFramePayload_boundary s (a ++ b) hab]
        have hpb : payloadBoundaryState s (a ++ b) = payloadBoundaryState s a := by
          rw [← payloadBoundaryState_take s (a ++ b), List.take_append_of_le_length hRL,
            payloadBoundaryState_take]
        rw [hpb]
        rcases Nat.lt_or_ge s.remainingLength a.length with hlt | hge
        . -- strict: `a` loops back into the header parser after the boundary
          rw [if_pos hlt] at hAlive hClean ⊢
          have hltab : s.remainingLength < (a ++ b).length := by
            simp only [List.length_append]
            omega
          rw [if_pos hltab, List.drop_append_of_le_length hRL]
          have hA : (readDataFrameHeader (payloadBoundaryState s a).1
              (a.drop s.remainingLength)).1.isAlive = true := hAlive
          have hC : cleanTrace (readDataFrameHeader (payloadBoundaryState s a).1
              (a.drop s.remainingLength)).2 = true := by
            have := hClean
            rw [show ((readDataFrameHeader (payloadBoundaryState s a).1
                  (a.drop s.remainingLength)).1,
                (payloadBoundaryState s a).2 ++
                  (readDataFrameHeader (payloadBoundaryState s a).1
                    (a.drop s.remainingLength)).2).2 =
                (payloadBoundaryState s a).2 ++
                  (readDataFrameHeader (payloadBoundaryState s a).1
                    (a.drop s.remainingLength)).2 from rfl] at this
            rw [cleanTrace_append, Bool.and_eq_true] at this
            exact this.2
          have ihh := (ih (payloadBoundaryState s a).1 (a.drop s.remainingLength) b hb).1
            (by simp only [List.length_drop]; omega) hA hC
          rw [ihh]
          simp [List.append_assoc]
        . -- the boundary is exactly the end of `a`
          rw [if_neg (show ¬(s.remainingLength < a.length) by omega)] at hAlive hClean ⊢
          have hltab : s.remainingLength < (a ++ b).length := by
            simp only [List.length_append]
            omega
          rw [if_pos hltab]
          have hdropab : (a ++ b).drop s.remainingLength = b := by
            rw [List.drop_append_of_le_length hRL,
              List.drop_eq_nil_of_le (show a.length ≤ s.remainingLength by omega),
              List.nil_append]
          rw [hdropab]
          unfold dispatchData
          rw [if_pos (payloadBoundaryState_rem s a)]
      . -- the whole of `a` lies inside the current frame's payload
        rw [readDataFramePayload_mid s a hRL] at hAlive hClean ⊢
        dsimp only
        unfold dispatchData
        rw [if_neg (show ¬(s.remainingLength - a.length = 0) by omega)]
        rcases Nat.lt_or_ge ((a ++ b).length) s.remainingLength with habR | habR
        . -- `a ++ b` still does not reach the frame boundary
          have habR2 : b.length < s.remainingLength - a.length := by
            simp only [List.length_append] at habR
            omega
          rw [readDataFramePayload_mid s (a ++ b) habR,
            readDataFramePayload_mid _ b habR2]
          rw [unmaskedPiece_append]
          have hc : unmaskedPiece { s with maskingIndex := (unmaskedPiece s a).2 } b =
              unmaskedPiece
                { s with
                  maskingIndex := (unmaskedPiece s a).2
                  payloadBuffers := s.payloadBuffers ++ (unmaskedPiece s a).1
                  remainingLength := s.remainingLength - a.length } b := by
            apply unmaskedPiece_congr <;> rfl
          rw [hc]
          simp only [List.length_append, List.append_assoc, Prod.mk.injEq, Conn.mk.injEq,
            true_and, and_true, and_self]
          exact ⟨by omega, by simp⟩
        . -- the frame boundary lies inside `b`
          have habR2 : s.remainingLength - a.length ≤ b.length := by
            simp only [List.length_append] at habR
            omega
          rw [readDataFramePayload_boundary s (a ++ b) habR,
            readDataFramePayload_boundary _ b habR2]
          rw [payloadBoundaryState_append s a b hRL]
          dsimp only
          by_cases hstrict : s.remainingLength < (a ++ b).length
          . have hstrict2 : s.remainingLength - a.length < b.length := by
              simp only [List.length_append] at hstrict
              omega
            rw [if_pos hstrict, if_pos hstrict2]
            have hdrop : (a ++ b).drop s.remainingLength =
                b.drop (s.remainingLength - a.length) := by
              rw [List.drop_append_eq_append_drop,
                List.drop_eq_nil_of_le (Nat.le_of_lt hRL), List.nil_append]
            rw [hdrop]
            simp
          . have hstrict2 : ¬(s.remainingLength - a.length < b.length) := by
              simp only [List.length_append] at hstrict
              omega
            rw [if_neg hstrict, if_neg hstrict2]
            simp

/-- `dispatchData` version of the append lemma. -/
theorem dispatchData_append (s : Conn) (a b : List Nat) (hb : b ≠ [])
    (hAlive : (dispatchData s a).1.isAlive = true)
    (hClean : cleanTrace (dispatchData s a).2 = true) :
    dispatchData s (a ++ b) =
      ((dispatchData (dispatchData s a).1 b).1,
       (dispatchData s a).2 ++ (dispatchData (dispatchData s a).1 b).2) := by
  have h1 : dispatchData s (a ++ b) =
      if s.remainingLength = 0 then readDataFrameHeader s (a ++ b)
      else readDataFramePayload s (a ++ b) := rfl
  have h2 : dispatchData s a =
      if s.remainingLength = 0 then readDataFrameHeader s a
      else readDataFramePayload s a := rfl
  by_cases h0 : s.remainingLength = 0
  . rw [h2, if_pos h0] at hAlive hClean
    rw [h1, if_pos h0, h2, if_pos h0]
    exact (run_append (2 * a.length) s a b hb).1 (by omega) hAlive hClean
  . rw [h2, if_neg h0] at hAlive hClean
    rw [h1, if_neg h0, h2, if_neg h0]
    exact (run_append (2 * a.length + 1) s a b hb).2 (by omega) hAlive hClean

theorem deliveredCallbacks_sync (t : List Ev) :
    deliveredCallbacks (Ev.sync :: t) = deliveredCallbacks t := by
  simp [deliveredCallbacks]

theorem cleanTrace_sync (t : List Ev) :
    cleanTrace (Ev.sync :: t) = cleanTrace t := by
  simp [cleanTrace]

theorem flatten_ne_nil (chunks : List (List Nat)) (h1 : chunks ≠ [])
    (h2 : ∀ c ∈ chunks, c ≠ []) : chunks.flatten ≠ [] := by
  cases chunks with
  | nil => exact absurd rfl h1
  | cons c rest =>
    have hc : c ≠ [] := h2 c (List.mem_cons_self c rest)
    simp only [List.flatten_cons]
    intro hcontra
    rw [List.append_eq_nil] at hcontra
    exact hc hcontra.1

/-- Feeding the chunks of a split one at a time is the same as feeding the
concatenation as one chunk, provided every chunk before the last leaves the
connection alive with a clean trace: same final state, and the same
delivered callbacks (the per-chunk sync callback aside). -/
theorem runChunks_flatten (chunks : List (List Nat)) : ∀ (s : Conn),
    chunks ≠ [] →
    (∀ c ∈ chunks, c ≠ []) →
    intermediatesOk s chunks = true →
    (runChunks s chunks).1 = (onData s chunks.flatten).1 ∧
    deliveredCallbacks (runChunks s chunks).2 =
      deliveredCallbacks (onData s chunks.flatten).2 := by
  induction chunks with
  | nil => intro s h1; exact absurd rfl h1
  | cons c rest ih =>
    intro s _ h2 h3
    have hrc : runChunks s (c :: rest) =
        ((runChunks (onData s c).1 rest).1,
         (onData s c).2 ++ (runChunks (onData s c).1 rest).2) := rfl
    cases rest with
    | nil =>
      rw [hrc]
      rw [show runChunks (onData s c).1 [] = ((onData s c).1, []) from rfl]
      have hf : ([c] : List (List Nat)).flatten = c := by simp
      rw [hf]
      exact ⟨rfl, by simp⟩
    | cons c2 rest2 =>
      have hok : (onData s c).1.isAlive = true ∧ cleanTrace (onData s c).2 = true ∧
          intermediatesOk (onData s c).1 (c2 :: rest2) = true := by
        unfold intermediatesOk at h3
        simp only [Bool.and_eq_true] at h3
        exact ⟨h3.1.1, h3.1.2, h3.2⟩
      have hcnil : (c2 :: rest2).flatten ≠ [] := by
        apply flatten_ne_nil
        . simp
        . intro x hx
          exact h2 x (List.mem_cons_of_mem c hx)
      have hCleanDisp : cleanTrace (dispatchData s c).2 = true := by
        rw [← cleanTrace_sync]
        exact hok.2.1
      have happ := dispatchData_append s c (c2 :: rest2).flatten hcnil hok.1 hCleanDisp
      have ihr := ih (onData s c).1 (by simp)
        (fun x hx => h2 x (List.mem_cons_of_mem c hx)) hok.2.2
      have honApp : onData s ((c :: c2 :: rest2).flatten) =
          ((dispatchData (dispatchData s c).1 (c2 :: rest2).flatten).1,
           Ev.sync :: ((dispatchData s c).2 ++
             (dispatchData (dispatchData s c).1 (c2 :: rest2).flatten).2)) := by
        rw [show (c :: c2 :: rest2).flatten = c ++ (c2 :: rest2).flatten from rfl]
        unfold onData
        rw [happ]
      have honRest : onData (onData s c).1 (c2 :: rest2).flatten =
          ((dispatchData (dispatchData s c).1 (c2 :: rest2).flatten).1,
           Ev.sync :: (dispatchData (dispatchData s c).1 (c2 :: rest2).flatten).2) := rfl
      have honC : (onData s c).2 = Ev.sync :: (dispatchData s c).2 := rfl
      rw [hrc, honApp]
      constructor
      . rw [show ((dispatchData (dispatchData s c).1 (c2 :: rest2).flatten).1,
            Ev.sync :: ((dispatchData s c).2 ++
              (dispatchData (dispatchData s c).1 (c2 :: rest2).flatten).2)).1 =
            (dispatchData (dispatchData s c).1 (c2 :: rest2).flatten).1 from rfl]
        rw [show ((runChunks (onData s c).1 (c2 :: rest2)).1,
            (onData s c).2 ++ (runChunks (onData s c).1 (c2 :: rest2)).2).1 =
            (runChunks (onData s c).1 (c2 :: rest2)).1 from rfl]
        rw [ihr.1, honRest]
      . rw [show ((dispatchData (dispatchData s c).1 (c2 :: rest2).flatten).1,
            Ev.sync :: ((dispatchData s c).2 ++
              (dispatchData (dispatchData s c).1 (c2 :: rest2).flatten).2)).2 =
            Ev.sync :: ((dispatchData s c).2 ++
              (dispatchData (dispatchData s c).1 (c2 :: rest2).flatten).2) from rfl]
        rw [show ((runChunks (onData s c).1 (c2 :: rest2)).1,
            (onData s c).2 ++ (runChunks (onData s c).1 (c2 :: rest2)).2).2 =
            (onData s c).2 ++ (runChunks (onData s c).1 (c2 :: rest2)).2 from rfl]
        rw [deliveredCallbacks_sync, deliveredCallbacks_append, deliveredCallbacks_append,
          ihr.2, honRest]
        rw [show ((dispatchData (dispatchData s c).1 (c2 :: rest2).flatten).1,
            Ev.sync :: (dispatchData (dispatchData s c).1 (c2 :: rest2).flatten).2).2 =
            Ev.sync :: (dispatchData (dispatchData s c).1 (c2 :: rest2).flatten).2 from rfl]
        rw [deliveredCallbacks_sync, honC, deliveredCallbacks_sync]

/-! ### `onEnd` fires at most once: trace accounting. -/

theorem countEnd_of_clean (t : List Ev) (h : cleanTrace t = true) : countEnd t = 0 := by
  induction t with
  | nil => rfl
  | cons e rest ih =>
    rw [cleanTrace] at h
    simp only [List.all_cons, Bool.and_eq_true] at h
    rw [countEnd, List.countP_cons]
    have hrest : countEnd rest = 0 := ih (by rw [cleanTrace]; exact h.2)
    rw [countEnd] at hrest
    rw [hrest]
    cases e <;> simp_all

theorem parseHeaderPre_inl_alive (s : Conn) (buffer : List Nat) (s1 : Conn)
    (e : Nat × String) (h : parseHeaderPre s buffer = Sum.inl (s1, e)) :
    s1.isAlive = s.isAlive := by
  unfold parseHeaderPre at h
  by_cases h2 : buffer.length < 2
  . simp only [h2, if_true] at h
    simp only [Sum.inl.injEq, Prod.mk.injEq] at h
    rw [← h.1]
  . simp only [h2, if_false] at h
    split at h
    . simp only [Sum.inl.injEq, Prod.mk.injEq] at h
      rw [← h.1]
    . split at h
      . simp only [Sum.inl.injEq, Prod.mk.injEq] at h
        rw [← h.1]
      . split at h
        . simp only [Sum.inl.injEq, Prod.mk.injEq] at h
          rw [← h.1]
        . split at h
          . split at h
            . simp only [Sum.inl.injEq, Prod.mk.injEq] at h
              rw [← h.1]
            . simp at h
          . simp at h

theorem endCount_drop_case (s0 s1 : Conn) (c : Nat) (a : String)
    (hAl : s1.isAlive = s0.isAlive) :
    ((dropConnection s1 c a).1.isAlive = true → s0.isAlive = true) ∧
    countEnd (dropConnection s1 c a).2 =
      (if s0.isAlive = true ∧ (dropConnection s1 c a).1.isAlive = false then 1 else 0) := by
  constructor
  . intro h
    rw [dropConnection_isAlive] at h
    simp at h
  . rw [countEnd_dropConnection, dropConnection_isAlive, hAl]
    by_cases h : s0.isAlive = true
    . simp [h]
    . simp [h]

theorem endCount_noop_case (s0 s1 : Conn) (evs : List Ev)
    (hAl : s1.isAlive = s0.isAlive) (hcnt : countEnd evs = 0) :
    (((s1, evs) : Conn × List Ev).1.isAlive = true → s0.isAlive = true) ∧
    countEnd ((s1, evs) : Conn × List Ev).2 =
      (if s0.isAlive = true ∧ ((s1, evs) : Conn × List Ev).1.isAlive = false then 1 else 0) := by
  constructor
  . intro h
    rw [← hAl]
    exact h
  . rw [hcnt]
    by_cases h : s0.isAlive = true
    . simp [h, hAl]
    . simp [h]

theorem run_endCount (n : Nat) : ∀ (s : Conn) (buffer : List Nat),
    ((2 * buffer.length ≤ n →
      ((readDataFrameHeader s buffer).1.isAlive = true → s.isAlive = true) ∧
      countEnd (readDataFrameHeader s buffer).2 =
        (if s.isAlive = true ∧ (readDataFrameHeader s buffer).1.isAlive = false then 1
         else 0)) ∧
     (2 * buffer.length + 1 ≤ n →
      ((readDataFramePayload s buffer).1.isAlive = true → s.isAlive = true) ∧
      countEnd (readDataFramePayload s buffer).2 =
        (if s.isAlive = true ∧ (readDataFramePayload s buffer).1.isAlive = false then 1
         else 0))) := by
  induction n with
  | zero =>
    intro s buffer
    constructor
    . intro hmeas
      have hbuf : buffer = [] := by
        cases buffer with
        | nil => rfl
        | cons x rest => simp at hmeas
      subst hbuf
      have hinl : parseHeaderPre s [] =
          Sum.inl (s, (1002, "ERR_INAVLID_DATA_FRAME_H2")) := by
        unfold parseHeaderPre
        simp
      rw [readDataFrameHeader_inl _ _ _ _ hinl]
      exact endCount_drop_case s s 1002 "ERR_INAVLID_DATA_FRAME_H2" rfl
    . intro hmeas
      omega
  | succ n ih =>
    intro s buffer
    constructor
    . -- header phase
      intro hmeas
      cases hpp : parseHeaderPre s buffer with
      | inl p =>
        obtain ⟨s1, e⟩ := p
        rw [readDataFrameHeader_inl _ _ _ _ hpp]
        exact endCount_drop_case s s1 e.1 e.2 (parseHeaderPre_inl_alive s buffer s1 e hpp)
      | inr p =>
        obtain ⟨s1, op, pl, ni⟩ := p
        have hproj := parseHeaderPre_inr_proj s buffer s1 (op, pl, ni) hpp
        have hbounds := parseHeaderPre_inr_bounds s buffer s1 op pl ni hpp
        by_cases hop8 : op = OPCODE_CONNECTION_CLOSE
        . subst hop8
          rw [readDataFrameHeader_close _ _ _ _ _ hpp]
          exact endCount_drop_case s s1 1000 "CLOSED_BY_PEER" hproj.2.2.1
        . by_cases hop0 : op = OPCODE_CONTINUATION_FRAME
          . subst hop0
            by_cases hrd : s1.isReadingMessage = true
            . rw [readDataFrameHeader_contOk _ _ _ _ _ hpp hrd]
              have hih := (ih { s1 with maskingIndex := 0, remainingLength := pl }
                (buffer.drop ni)).2 (by simp only [List.length_drop]; omega)
              constructor
              . intro h
                have := hih.1 h
                rw [show ({ s1 with maskingIndex := 0, remainingLength := pl } :
                    Conn).isAlive = s1.isAlive from rfl] at this
                rw [← hproj.2.2.1]
                exact this
              . rw [hih.2]
                rw [show ({ s1 with maskingIndex := 0, remainingLength := pl } :
                    Conn).isAlive = s1.isAlive from rfl, hproj.2.2.1]
            . simp only [Bool.not_eq_true] at hrd
              rw [readDataFrameHeader_contBad _ _ _ _ _ hpp hrd]
              exact endCount_drop_case s s1 1002 "ERR_BAD_CONTINUE_OPCODE" hproj.2.2.1
          . by_cases hop12 : op = OPCODE_TEXT_FRAME ∨ op = OPCODE_BINARY_FRAME
            . by_cases hrd : s1.isReadingMessage = true
              . rw [readDataFrameHeader_dataBad _ _ _ _ _ _ hpp hop12 hrd]
                exact endCount_drop_case s s1 1002 "ERR_BAD_DATA_OPCODE" hproj.2.2.1
              . simp only [Bool.not_eq_true] at hrd
                rw [readDataFrameHeader_dataOk _ _ _ _ _ _ hpp hop12 hrd]
                have hih := (ih
                  { s1 with
                    isReadingMessage := true
                    payloadOpCode := op
                    payloadBuffers := []
                    maskingIndex := 0
                    remainingLength := pl }
                  (buffer.drop ni)).2 (by simp only [List.length_drop]; omega)
                constructor
                . intro h
                  have := hih.1 h
                  rw [show ({ s1 with
                      isReadingMessage := true
                      payloadOpCode := op
                      payloadBuffers := []
                      maskingIndex := 0
                      remainingLength := pl } : Conn).isAlive = s1.isAlive from rfl] at this
                  rw [← hproj.2.2.1]
                  exact this
                . rw [hih.2]
                  rw [show ({ s1 with
                      isReadingMessage := true
                      payloadOpCode := op
                      payloadBuffers := []
                      maskingIndex := 0
                      remainingLength := pl } : Conn).isAlive = s1.isAlive from rfl,
                    hproj.2.2.1]
            . by_cases hop9 : op = OPCODE_PING
              . subst hop9
                rw [readDataFrameHeader_ping _ _ _ _ _ hpp]
                exact endCount_noop_case s s1 [Ev.wrote (frameDataPong s1)] hproj.2.2.1
                  (by simp [countEnd])
              . by_cases hop10 : op = OPCODE_PONG
                . subst hop10
                  rw [readDataFrameHeader_pong _ _ _ _ _ hpp]
                  exact endCount_noop_case s s1 [Ev.pongRecv] hproj.2.2.1 (by simp [countEnd])
                . push_neg at hop12
                  rw [readDataFrameHeader_unsupported _ _ _ _ _ _ hpp hop0 hop12.1 hop12.2
                    hop8 hop9 hop10]
                  exact endCount_drop_case s s1 1003 "ERR_UNSUPPORTED_OPCODE" hproj.2.2.1
    . -- payload phase
      intro hmeas
      rcases le_or_lt s.remainingLength buffer.length with hRL | hRL
      . rw [readDataFramePayload_boundary s buffer hRL]
        by_cases hstrict : s.remainingLength < buffer.length
        . rw [if_pos hstrict]
          have hih := (ih (payloadBoundaryState s buffer).1
            (buffer.drop s.remainingLength)).1 (by simp only [List.length_drop]; omega)
          constructor
          . intro h
            have := hih.1 h
            rw [payloadBoundaryState_isAlive] at this
            exact this
          . rw [show ((readDataFrameHeader (payloadBoundaryState s buffer).1
                (buffer.drop s.remainingLength)).1,
                (payloadBoundaryState s buffer).2 ++
                  (readDataFrameHeader (payloadBoundaryState s buffer).1
                    (buffer.drop s.remainingLength)).2).2 =
                (payloadBoundaryState s buffer).2 ++
                  (readDataFrameHeader (payloadBoundaryState s buffer).1
                    (buffer.drop s.remainingLength)).2 from rfl]
            rw [countEnd_append,
              countEnd_of_clean _ (payloadBoundaryState_clean s buffer), Nat.zero_add]
            rw [hih.2, payloadBoundaryState_isAlive]
        . rw [if_neg hstrict]
          constructor
          . intro h
            rw [payloadBoundaryState_isAlive] at h
            exact h
          . rw [countEnd_of_clean _ (payloadBoundaryState_clean s buffer)]
            by_cases h : s.isAlive = true
            . simp [h, payloadBoundaryState_isAlive]
            . simp [h]
      . rw [readDataFramePayload_mid s buffer hRL]
        exact endCount_noop_case s _ [] rfl rfl

theorem dispatch_endCount (s : Conn) (buffer : List Nat) :
    ((dispatchData s buffer).1.isAlive = true → s.isAlive = true) ∧
    countEnd (dispatchData s buffer).2 =
      (if s.isAlive = true ∧ (dispatchData s buffer).1.isAlive = false then 1 else 0) := by
  have h1 : dispatchData s buffer =
      if s.remainingLength = 0 then readDataFrameHeader s buffer
      else readDataFramePayload s buffer := rfl
  by_cases h0 : s.remainingLength = 0
  . rw [h1, if_pos h0]
    exact (run_endCount (2 * buffer.length) s buffer).1 (Nat.le_refl _)
  . rw [h1, if_neg h0]
    exact (run_endCount (2 * buffer.length + 1) s buffer).2 (Nat.le_refl _)

theorem runOp_endCount (s : Conn) (op : Op) :
    ((runOp s op).1.isAlive = true → s.isAlive = true) ∧
    countEnd (runOp s op).2 =
      (if s.isAlive = true ∧ (runOp s op).1.isAlive = false then 1 else 0) := by
  cases op with
  | chunk buffer =>
    have hd := dispatch_endCount s buffer
    have h1 : runOp s (Op.chunk buffer) =
        ((dispatchData s buffer).1, Ev.sync :: (dispatchData s buffer).2) := rfl
    rw [h1]
    constructor
    . exact hd.1
    . rw [show countEnd (Ev.sync :: (dispatchData s buffer).2) =
          countEnd (dispatchData s buffer).2 by simp [countEnd]]
      exact hd.2
  | sendText string maskingKey =>
    exact endCount_noop_case s s _ rfl (by simp [countEnd])
  | sendBinary buffer maskingKey =>
    exact endCount_noop_case s s _ rfl (by simp [countEnd])
  | ping =>
    exact endCount_noop_case s s _ rfl (by simp [countEnd])
  | endApi =>
    exact endCount_drop_case s s 1000 "CLOSED_BY_SELF" rfl

theorem runOps_endCount (ops : List Op) : ∀ (s : Conn),
    ((runOps s ops).1.isAlive = true → s.isAlive = true) ∧
    countEnd (runOps s ops).2 =
      (if s.isAlive = true ∧ (runOps s ops).1.isAlive = false then 1 else 0) := by
  induction ops with
  | nil =>
    intro s
    constructor
    . intro h
      exact h
    . by_cases h : s.isAlive = true <;> simp [runOps, countEnd, h]
  | cons op rest ih =>
    intro s
    have h1 : runOps s (op :: rest) =
        ((runOps (runOp s op).1 rest).1,
         (runOp s op).2 ++ (runOps (runOp s op).1 rest).2) := rfl
    rw [h1]
    have hop := runOp_endCount s op
    have hrest := ih (runOp s op).1
    constructor
    . intro h
      exact hop.1 (hrest.1 h)
    . rw [show ((runOps (runOp s op).1 rest).1,
          (runOp s op).2 ++ (runOps (runOp s op).1 rest).2).2 =
          (runOp s op).2 ++ (runOps (runOp s op).1 rest).2 from rfl]
      rw [countEnd_append, hop.2, hrest.2]
      cases hs : s.isAlive <;> cases hd : (runOp s op).1.isAlive <;>
        cases hr : (runOps (runOp s op).1 rest).1.isAlive <;> simp_all

/-! ### Concrete evaluations of the parser on the scenario frames. -/

theorem hello_header_run :
    readDataFrameHeader serverConnection helloChunk =
      (helloAfter, [Ev.text (utf8Bytes "Hello")]) := by
  have hp : parseHeaderPre serverConnection helloChunk =
      Sum.inr
        ({ serverConnection with
           isFinSet := true
           isMasked := true
           maskingKey := [0x37, 0xfa, 0x21, 0x3d] },
         (1, 5, 6)) := by decide
  rw [readDataFrameHeader_dataOk _ _ _ _ _ _ hp (Or.inl rfl) rfl]
  rw [readDataFramePayload_boundary _ _ (by decide)]
  decide

theorem hello_onData :
    onData serverConnection helloChunk =
      (helloAfter, [Ev.sync, Ev.text (utf8Bytes "Hello")]) := by
  have h1 : onData serverConnection helloChunk =
      ((readDataFrameHeader serverConnection helloChunk).1,
       Ev.sync :: (readDataFrameHeader serverConnection helloChunk).2) := rfl
  rw [h1, hello_header_run]

theorem helloA_onData :
    onData serverConnection helloChunkA = (helloPartial, [Ev.sync]) := by
  have hp : parseHeaderPre serverConnection helloChunkA =
      Sum.inr
        ({ serverConnection with
           isFinSet := true
           isMasked := true
           maskingKey := [0x37, 0xfa, 0x21, 0x3d] },
         (1, 5, 6)) := by decide
  have h1 : onData serverConnection helloChunkA =
      ((readDataFrameHeader serverConnection helloChunkA).1,
       Ev.sync :: (readDataFrameHeader serverConnection helloChunkA).2) := rfl
  rw [h1, readDataFrameHeader_dataOk _ _ _ _ _ _ hp (Or.inl rfl) rfl]
  rw [readDataFramePayload_mid _ _ (by decide)]
  decide

theorem helloB_onData :
    onData helloPartial helloChunkB =
      (helloAfter, [Ev.sync, Ev.text (utf8Bytes "Hello")]) := by
  have h1 : onData helloPartial helloChunkB =
      ((readDataFramePayload helloPartial helloChunkB).1,
       Ev.sync :: (readDataFramePayload helloPartial helloChunkB).2) := rfl
  rw [h1, readDataFramePayload_boundary _ _ (by decide)]
  decide

theorem close_onData :
    onData serverConnection closeChunk =
      (serverClosed,
       [Ev.sync, Ev.wrote [136, 4, 49, 48, 48, 48], Ev.socketEnd,
        Ev.endCb "CLOSED_BY_PEER" 1000]) := by
  have hp : parseHeaderPre serverConnection closeChunk =
      Sum.inr
        ({ serverConnection with
           isFinSet := true
           isMasked := true
           maskingKey := [0x00, 0x00, 0x00, 0x00] },
         (8, 0, 6)) := by decide
  have h1 : onData serverConnection closeChunk =
      ((readDataFrameHeader serverConnection closeChunk).1,
       Ev.sync :: (readDataFrameHeader serverConnection closeChunk).2) := rfl
  rw [h1, readDataFrameHeader_close _ _ _ _ _ hp]
  decide

theorem helloAfterClose_onData :
    onData serverClosed helloChunk =
      ({ serverClosed with
         payloadOpCode := OPCODE_TEXT_FRAME
         maskingKey := []
         maskingIndex := 1 },
       [Ev.sync, Ev.text (utf8Bytes "Hello")]) := by
  have hp : parseHeaderPre serverClosed helloChunk =
      Sum.inr
        ({ serverClosed with maskingKey := [0x37, 0xfa, 0x21, 0x3d] },
         (1, 5, 6)) := by decide
  have h1 : onData serverClosed helloChunk =
      ((readDataFrameHeader serverClosed helloChunk).1,
       Ev.sync :: (readDataFrameHeader serverClosed helloChunk).2) := rfl
  rw [h1, readDataFrameHeader_dataOk _ _ _ _ _ _ hp (Or.inl rfl) rfl]
  rw [readDataFramePayload_boundary _ _ (by decide)]
  decide

theorem pingHello_header_run :
    readDataFrameHeader serverConnection (pingChunk ++ helloChunk) =
      ({ serverConnection with
         isFinSet := true
         isMasked := true
         maskingKey := [0x00, 0x00, 0x00, 0x00] },
       [Ev.wrote [138, 0]]) := by
  have hp : parseHeaderPre serverConnection (pingChunk ++ helloChunk) =
      Sum.inr
        ({ serverConnection with
           isFinSet := true
           isMasked := true
           maskingKey := [0x00, 0x00, 0x00, 0x00] },
         (9, 0, 6)) := by decide
  rw [readDataFrameHeader_ping _ _ _ _ _ hp]
  decide

theorem shortHeader_onData :
    onData serverConnection [0x81] =
      ({ serverConnection with isAlive := false },
       [Ev.sync, Ev.wrote [136, 4, 49, 48, 48, 50], Ev.socketEnd,
        Ev.endCb "ERR_INAVLID_DATA_FRAME_H2" 1002]) := by
  have hp : parseHeaderPre serverConnection [0x81] =
      Sum.inl (serverConnection, (1002, "ERR_INAVLID_DATA_FRAME_H2")) := by decide
  have h1 : onData serverConnection [0x81] =
      ((readDataFrameHeader serverConnection [0x81]).1,
       Ev.sync :: (readDataFrameHeader serverConnection [0x81]).2) := rfl
  rw [h1, readDataFrameHeader_inl _ _ _ _ hp]
  decide

theorem shortHeaderRest_onData :
    onData { serverConnection with isAlive := false }
        [0x85, 0x37, 0xfa, 0x21, 0x3d, 0x7f, 0x9f, 0x4d, 0x51, 0x58] =
      ({ serverConnection with isAlive := false, isFinSet := true }, [Ev.sync]) := by
  have hp : parseHeaderPre { serverConnection with isAlive := false }
        [0x85, 0x37, 0xfa, 0x21, 0x3d, 0x7f, 0x9f, 0x4d, 0x51, 0x58] =
      Sum.inl ({ serverConnection with isAlive := false, isFinSet := true },
        (1008, "ERR_PEER_MASKING_DISABLED")) := by decide
  have h1 : onData { serverConnection with isAlive := false }
        [0x85, 0x37, 0xfa, 0x21, 0x3d, 0x7f, 0x9f, 0x4d, 0x51, 0x58] =
      ((readDataFrameHeader { serverConnection with isAlive := false }
          [0x85, 0x37, 0xfa, 0x21, 0x3d, 0x7f, 0x9f, 0x4d, 0x51, 0x58]).1,
       Ev.sync :: (readDataFrameHeader { serverConnection with isAlive := false }
          [0x85, 0x37, 0xfa, 0x21, 0x3d, 0x7f, 0x9f, 0x4d, 0x51, 0x58]).2) := rfl
  rw [h1, readDataFrameHeader_inl _ _ _ _ hp]
  decide

/-! ### The claims. -/

/-- C1: a server-role connection receiving the single chunk
`81 85 37 fa 21 3d 7f 9f 4d 51 58` (masked "Hello" text frame, FIN set)
invokes the text callback exactly once with the string "Hello", invokes no
other message callback, and stays alive. -/
theorem hello_frame_delivers_single_text :
    onData serverConnection helloChunk =
      (helloAfter, [Ev.sync, Ev.text (utf8Bytes "Hello")]) ∧
    deliveredCallbacks (onData serverConnection helloChunk).2 =
      [Ev.text (utf8Bytes "Hello")] ∧
    (onData serverConnection helloChunk).1.isAlive = true := by
  refine ⟨hello_onData, ?_, ?_⟩ <;> rw [hello_onData] <;> decide

/-- C2 (amended): feeding a split of an inbound byte sequence chunk by
chunk delivers the same callbacks as feeding it as one chunk, provided
every chunk is nonempty and every chunk before the last leaves the
connection alive with a clean trace (no drop — e.g. a header cut in two —
and no ping/pong/close dispatch, whose early return discards the rest of a
chunk); in particular the masked "Hello" frame split after its sixth byte
still delivers a single text callback. -/
theorem chunk_split_delivery_amended (s : Conn) (chunks : List (List Nat))
    (h1 : chunks ≠ []) (h2 : ∀ c ∈ chunks, c ≠ [])
    (h3 : intermediatesOk s chunks = true) :
    deliveredCallbacks (runChunks s chunks).2 =
      deliveredCallbacks (onData s chunks.flatten).2 ∧
    (runChunks s chunks).1 = (onData s chunks.flatten).1 := by
  have h := runChunks_flatten chunks s h1 h2 h3
  exact ⟨h.2, h.1⟩

/-- C2 counterexample: splitting the Hello frame after its first byte does
not deliver what the unsplit sequence delivers — the first one-byte chunk
is rejected as a short header and the connection is dropped with 1002,
while the unsplit chunk delivers the text callback. -/
theorem chunk_split_delivery_counterexample :
    [0x81] ++ [0x85, 0x37, 0xfa, 0x21, 0x3d, 0x7f, 0x9f, 0x4d, 0x51, 0x58] = helloChunk ∧
    deliveredCallbacks (onData serverConnection helloChunk).2 =
      [Ev.text (utf8Bytes "Hello")] ∧
    deliveredCallbacks (runChunks serverConnection
        [[0x81], [0x85, 0x37, 0xfa, 0x21, 0x3d, 0x7f, 0x9f, 0x4d, 0x51, 0x58]]).2 =
      [Ev.endCb "ERR_INAVLID_DATA_FRAME_H2" 1002] ∧
    deliveredCallbacks (runChunks serverConnection
        [[0x81], [0x85, 0x37, 0xfa, 0x21, 0x3d, 0x7f, 0x9f, 0x4d, 0x51, 0x58]]).2 ≠
      deliveredCallbacks (onData serverConnection helloChunk).2 := by
  have ha : deliveredCallbacks (onData serverConnection helloChunk).2 =
      [Ev.text (utf8Bytes "Hello")] := by
    rw [hello_onData]
    decide
  have hb : deliveredCallbacks (runChunks serverConnection
      [[0x81], [0x85, 0x37, 0xfa, 0x21, 0x3d, 0x7f, 0x9f, 0x4d, 0x51, 0x58]]).2 =
      [Ev.endCb "ERR_INAVLID_DATA_FRAME_H2" 1002] := by
    have hr : runChunks serverConnection
        [[0x81], [0x85, 0x37, 0xfa, 0x21, 0x3d, 0x7f, 0x9f, 0x4d, 0x51, 0x58]] =
        ((onData (onData serverConnection [0x81]).1
            [0x85, 0x37, 0xfa, 0x21, 0x3d, 0x7f, 0x9f, 0x4d, 0x51, 0x58]).1,
         (onData serverConnection [0x81]).2 ++
           ((onData (onData serverConnection [0x81]).1
              [0x85, 0x37, 0xfa, 0x21, 0x3d, 0x7f, 0x9f, 0x4d, 0x51, 0x58]).2 ++ [])) := rfl
    rw [hr, shortHeader_onData]
    dsimp only
    rw [shortHeaderRest_onData]
    decide
  refine ⟨by decide, ha, hb, ?_⟩
  rw [ha, hb]
  decide

/-- C2 witness: the Hello frame split after its sixth byte satisfies the
amended hypotheses and delivers the single text callback. -/
theorem chunk_split_delivery_witness :
    intermediatesOk serverConnection [helloChunkA, helloChunkB] = true ∧
    deliveredCallbacks (runChunks serverConnection [helloChunkA, helloChunkB]).2 =
      deliveredCallbacks (onData serverConnection [helloChunkA, helloChunkB].flatten).2 ∧
    deliveredCallbacks (runChunks serverConnection [helloChunkA, helloChunkB]).2 =
      [Ev.text (utf8Bytes "Hello")] := by
  have hok : intermediatesOk serverConnection [helloChunkA, helloChunkB] = true := by
    have h1 : intermediatesOk serverConnection [helloChunkA, helloChunkB] =
        ((onData serverConnection helloChunkA).1.isAlive &&
         cleanTrace (onData serverConnection helloChunkA).2 &&
         intermediatesOk (onData serverConnection helloChunkA).1 [helloChunkB]) := rfl
    rw [h1, helloA_onData]
    decide
  have hdeliv : deliveredCallbacks
      (runChunks serverConnection [helloChunkA, helloChunkB]).2 =
      [Ev.text (utf8Bytes "Hello")] := by
    have hr : runChunks serverConnection [helloChunkA, helloChunkB] =
        ((onData (onData serverConnection helloChunkA).1 helloChunkB).1,
         (onData serverConnection helloChunkA).2 ++
           ((onData (onData serverConnection helloChunkA).1 helloChunkB).2 ++ [])) := rfl
    rw [hr, helloA_onData]
    dsimp only
    rw [helloB_onData]
    decide
  exact ⟨hok,
    (chunk_split_delivery_amended serverConnection [helloChunkA, helloChunkB]
      (by decide) (by intro c hc; fin_cases hc <;> decide) hok).1,
    hdeliv⟩

/-- C3: the XOR masking transform of the codec is an involution, and the
parser's streaming unmasking (carrying the running masking index across
chunk boundaries) recovers the original payload from a masked payload
however it is split into chunks. -/
theorem masking_involution_and_streaming :
    (∀ (maskingKey payload : List Nat),
      maskBytes maskingKey (maskBytes maskingKey payload) = payload) ∧
    (∀ (maskingKey payload : List Nat) (chunks : List (List Nat)),
      chunks.flatten = maskBytes maskingKey payload →
      unmaskChunks maskingKey 0 chunks = payload) := by
  constructor
  . intro k p
    exact maskLoop_involution k p 0
  . intro k p chunks h
    rw [unmaskChunks_flatten, h, unmaskLoop_maskBytes]

/-- C3 witness: a five-byte payload masked with a concrete key, split into
two chunks, is recovered bytewise by the streaming unmasker. -/
theorem masking_involution_and_streaming_witness :
    ([[6, 9], [14, 21, 2]] : List (List Nat)).flatten =
      maskBytes [7, 11, 13, 17] [1, 2, 3, 4, 5] ∧
    unmaskChunks [7, 11, 13, 17] 0 [[6, 9], [14, 21, 2]] = [1, 2, 3, 4, 5] ∧
    maskBytes [7, 11, 13, 17] (maskBytes [7, 11, 13, 17] [1, 2, 3, 4, 5]) =
      [1, 2, 3, 4, 5] := by
  exact ⟨by decide,
    masking_involution_and_streaming.2 [7, 11, 13, 17] [1, 2, 3, 4, 5]
      [[6, 9], [14, 21, 2]] (by decide),
    masking_involution_and_streaming.1 [7, 11, 13, 17] [1, 2, 3, 4, 5]⟩

/-- C4: in header-expected state the parser enforces the fragmentation
opcode discipline: a continuation frame with no message in progress, or a
text/binary frame while a message is in progress, drops the connection
with close code 1002 and the respective error kind, and no message
callback fires for that frame. -/
theorem fragmentation_opcode_discipline (s : Conn) (buffer : List Nat) (s1 : Conn)
    (op pl ni : Nat) (halive : s.isAlive = true)
    (hpp : parseHeaderPre s buffer = Sum.inr (s1, (op, pl, ni))) :
    (op = OPCODE_CONTINUATION_FRAME → s1.isReadingMessage = false →
      readDataFrameHeader s buffer =
        ({ s1 with isAlive := false },
         [Ev.wrote (createCloseFrame 1002 s1.toMaskOwnMessages randomKeyModel),
          Ev.socketEnd, Ev.endCb "ERR_BAD_CONTINUE_OPCODE" 1002]) ∧
      deliveredCallbacks (readDataFrameHeader s buffer).2 =
        [Ev.endCb "ERR_BAD_CONTINUE_OPCODE" 1002]) ∧
    ((op = OPCODE_TEXT_FRAME ∨ op = OPCODE_BINARY_FRAME) → s1.isReadingMessage = true →
      readDataFrameHeader s buffer =
        ({ s1 with isAlive := false },
         [Ev.wrote (createCloseFrame 1002 s1.toMaskOwnMessages randomKeyModel),
          Ev.socketEnd, Ev.endCb "ERR_BAD_DATA_OPCODE" 1002]) ∧
      deliveredCallbacks (readDataFrameHeader s buffer).2 =
        [Ev.endCb "ERR_BAD_DATA_OPCODE" 1002]) := by
  have hAl : s1.isAlive = true := by
    rw [(parseHeaderPre_inr_proj s buffer s1 _ hpp).2.2.1]
    exact halive
  constructor
  . intro hop hrd
    subst hop
    have h := readDataFrameHeader_contBad s buffer s1 pl ni hpp hrd
    rw [h, dropConnection_of_alive s1 1002 "ERR_BAD_CONTINUE_OPCODE" hAl]
    exact ⟨rfl, rfl⟩
  . intro hop hrd
    have h := readDataFrameHeader_dataBad s buffer s1 op pl ni hpp hop hrd
    rw [h, dropConnection_of_alive s1 1002 "ERR_BAD_DATA_OPCODE" hAl]
    exact ⟨rfl, rfl⟩

/-- C4 witness: a masked continuation frame on a fresh server connection,
and a masked text frame while a message is in progress, each drop the
connection with 1002 and the right error kind. -/
theorem fragmentation_opcode_discipline_witness :
    readDataFrameHeader serverConnection continuationChunk =
      ({ serverConnection with
         isAlive := false
         isFinSet := true
         isMasked := true
         maskingKey := [0x00, 0x00, 0x00, 0x00] },
       [Ev.wrote [136, 4, 49, 48, 48, 50], Ev.socketEnd,
        Ev.endCb "ERR_BAD_CONTINUE_OPCODE" 1002]) ∧
    readDataFrameHeader { serverConnection with isReadingMessage := true } helloChunk =
      ({ serverConnection with
         isAlive := false
         isReadingMessage := true
         isFinSet := true
         isMasked := true
         maskingKey := [0x37, 0xfa, 0x21, 0x3d] },
       [Ev.wrote [136, 4, 49, 48, 48, 50], Ev.socketEnd,
        Ev.endCb "ERR_BAD_DATA_OPCODE" 1002]) := by
  have hp1 : parseHeaderPre serverConnection continuationChunk =
      Sum.inr
        ({ serverConnection with
           isFinSet := true
           isMasked := true
           maskingKey := [0x00, 0x00, 0x00, 0x00] },
         (0, 0, 6)) := by decide
  have hp2 : parseHeaderPre { serverConnection with isReadingMessage := true } helloChunk =
      Sum.inr
        ({ serverConnection with
           isReadingMessage := true
           isFinSet := true
           isMasked := true
           maskingKey := [0x37, 0xfa, 0x21, 0x3d] },
         (1, 5, 6)) := by decide
  constructor
  . rw [(fragmentation_opcode_discipline serverConnection continuationChunk _ 0 0 6
      rfl hp1).1 rfl rfl |>.1]
    decide
  . rw [(fragmentation_opcode_discipline { serverConnection with isReadingMessage := true }
      helloChunk _ 1 5 6 rfl hp2).2 (Or.inl rfl) rfl |>.1]
    decide

/-- C5 (amended): `dropConnection` is the sole terminal transition and is
idempotent — a no-op when the connection is already dead, and otherwise it
clears `isAlive`, writes a close frame, half-closes the transport and
fires `onEnd`; over every execution the `onEnd` callback fires at most
once and `isAlive` never returns to `true`.  (The source keeps parsing
inbound chunks after the drop, so message callbacks can still fire after
`onEnd`; see the counterexample.) -/
theorem drop_terminal_amended :
    (∀ (s : Conn) (c : Nat) (a : String), s.isAlive = false →
      dropConnection s c a = (s, [])) ∧
    (∀ (s : Conn) (c : Nat) (a : String), s.isAlive = true →
      dropConnection s c a =
        ({ s with isAlive := false },
         [Ev.wrote (createCloseFrame c s.toMaskOwnMessages randomKeyModel),
          Ev.socketEnd, Ev.endCb a c])) ∧
    (∀ (s : Conn) (ops : List Op), countEnd (runOps s ops).2 ≤ 1) ∧
    (∀ (s : Conn) (ops : List Op), s.isAlive = false →
      (runOps s ops).1.isAlive = false) := by
  refine ⟨dropConnection_of_dead, dropConnection_of_alive, ?_, ?_⟩
  . intro s ops
    rw [(runOps_endCount ops s).2]
    split
    . exact Nat.le_refl 1
    . exact Nat.zero_le 1
  . intro s ops h
    by_contra hc
    simp only [Bool.not_eq_false] at hc
    have hmono := (runOps_endCount ops s).1 hc
    rw [h] at hmono
    exact absurd hmono (by simp)

/-- C5 witness: concrete instances of the four amended conjuncts — a drop
on a dead connection is a no-op, a drop on a live one fires the close
sequence, an execution that closes twice and then receives a message still
fires `onEnd` at most once, and a dead connection stays dead. -/
theorem drop_terminal_witness :
    dropConnection serverClosed 1000 "CLOSED_BY_SELF" = (serverClosed, []) ∧
    dropConnection serverConnection 1000 "CLOSED_BY_SELF" =
      ({ serverConnection with isAlive := false },
       [Ev.wrote (createCloseFrame 1000 false randomKeyModel),
        Ev.socketEnd, Ev.endCb "CLOSED_BY_SELF" 1000]) ∧
    countEnd (runOps serverConnection
      [Op.chunk closeChunk, Op.endApi, Op.chunk helloChunk]).2 ≤ 1 ∧
    (runOps serverClosed [Op.endApi, Op.ping]).1.isAlive = false := by
  exact ⟨drop_terminal_amended.1 serverClosed 1000 "CLOSED_BY_SELF" rfl,
    drop_terminal_amended.2.1 serverConnection 1000 "CLOSED_BY_SELF" rfl,
    drop_terminal_amended.2.2.1 serverConnection
      [Op.chunk closeChunk, Op.endApi, Op.chunk helloChunk],
    drop_terminal_amended.2.2.2 serverClosed [Op.endApi, Op.ping] rfl⟩

/-- C5 counterexample: the text callback can fire after `onEnd` — a close
frame followed by a further inbound chunk still delivers the chunk's
message, because `onData` is not guarded by `isAlive`. -/
theorem callbacks_after_onEnd_counterexample :
    (runChunks serverConnection [closeChunk, helloChunk]).2 =
      [Ev.sync, Ev.wrote [136, 4, 49, 48, 48, 48], Ev.socketEnd,
       Ev.endCb "CLOSED_BY_PEER" 1000, Ev.sync, Ev.text (utf8Bytes "Hello")] ∧
    (runChunks serverConnection [closeChunk, helloChunk]).1.isAlive = false := by
  have hr : runChunks serverConnection [closeChunk, helloChunk] =
      ((onData (onData serverConnection closeChunk).1 helloChunk).1,
       (onData serverConnection closeChunk).2 ++
         ((onData (onData serverConnection closeChunk).1 helloChunk).2 ++ [])) := rfl
  rw [hr, close_onData]
  dsimp only
  rw [helloAfterClose_onData]
  exact ⟨by decide, by decide⟩

theorem helloAfterPing_header_run :
    readDataFrameHeader
      { serverConnection with
        isFinSet := true
        isMasked := true
        maskingKey := [0x00, 0x00, 0x00, 0x00] } helloChunk =
      (helloAfter, [Ev.text (utf8Bytes "Hello")]) := by
  have hp : parseHeaderPre
      { serverConnection with
        isFinSet := true
        isMasked := true
        maskingKey := [0x00, 0x00, 0x00, 0x00] } helloChunk =
      Sum.inr
        ({ serverConnection with
           isFinSet := true
           isMasked := true
           maskingKey := [0x37, 0xfa, 0x21, 0x3d] },
         (1, 5, 6)) := by decide
  rw [readDataFrameHeader_dataOk _ _ _ _ _ _ hp (Or.inl rfl) rfl]
  rw [readDataFramePayload_boundary _ _ (by decide)]
  decide

/-- C6 (amended): when a chunk contains one complete data frame
(continuation, text or binary — a parse that ends alive, with a clean
trace and no pending payload) followed by further bytes, the parser
resumes by parsing those bytes as the next frame header; for ping, pong
and close frames the dispatch returns early and the remainder of the chunk
is discarded (see the counterexample). -/
theorem data_frame_resumption_amended (s : Conn) (frame rest : List Nat)
    (hrest : rest ≠ [])
    (hAlive : (readDataFrameHeader s frame).1.isAlive = true)
    (hClean : cleanTrace (readDataFrameHeader s frame).2 = true)
    (hBoundary : (readDataFrameHeader s frame).1.remainingLength = 0) :
    readDataFrameHeader s (frame ++ rest) =
      ((readDataFrameHeader (readDataFrameHeader s frame).1 rest).1,
       (readDataFrameHeader s frame).2 ++
         (readDataFrameHeader (readDataFrameHeader s frame).1 rest).2) := by
  have h := (run_append (2 * frame.length) s frame rest hrest).1 (Nat.le_refl _)
    hAlive hClean
  rw [h]
  have hd : dispatchData (readDataFrameHeader s frame).1 rest =
      readDataFrameHeader (readDataFrameHeader s frame).1 rest := by
    unfold dispatchData
    rw [if_pos hBoundary]
  rw [hd]

/-- C6 witness: the Hello frame followed by a masked ping in the same
chunk — the text message is delivered and the ping is then parsed as the
next frame header (a pong is written). -/
theorem data_frame_resumption_witness :
    (readDataFrameHeader serverConnection helloChunk).1.isAlive = true ∧
    cleanTrace (readDataFrameHeader serverConnection helloChunk).2 = true ∧
    (readDataFrameHeader serverConnection helloChunk).1.remainingLength = 0 ∧
    readDataFrameHeader serverConnection (helloChunk ++ pingChunk) =
      ((readDataFrameHeader (readDataFrameHeader serverConnection helloChunk).1
          pingChunk).1,
       (readDataFrameHeader serverConnection helloChunk).2 ++
         (readDataFrameHeader (readDataFrameHeader serverConnection helloChunk).1
           pingChunk).2) := by
  have h1 : (readDataFrameHeader serverConnection helloChunk).1.isAlive = true := by
    rw [hello_header_run]
    decide
  have h2 : cleanTrace (readDataFrameHeader serverConnection helloChunk).2 = true := by
    rw [hello_header_run]
    decide
  have h3 : (readDataFrameHeader serverConnection helloChunk).1.remainingLength = 0 := by
    rw [hello_header_run]
    decide
  exact ⟨h1, h2, h3,
    data_frame_resumption_amended serverConnection helloChunk pingChunk (by decide)
      h1 h2 h3⟩

/-- C6 counterexample: a masked ping followed by the Hello frame in the
same chunk — the ping dispatch returns early and the Hello frame is
silently discarded, although parsing the remainder as the next frame
header (as the claim asserts) would have delivered the text message. -/
theorem control_frame_resumption_counterexample :
    readDataFrameHeader serverConnection (pingChunk ++ helloChunk) =
      ({ serverConnection with
         isFinSet := true
         isMasked := true
         maskingKey := [0x00, 0x00, 0x00, 0x00] },
       [Ev.wrote [138, 0]]) ∧
    deliveredCallbacks
      (readDataFrameHeader serverConnection (pingChunk ++ helloChunk)).2 = [] ∧
    deliveredCallbacks
      (readDataFrameHeader
        (readDataFrameHeader serverConnection (pingChunk ++ helloChunk)).1
        helloChunk).2 =
      [Ev.text (utf8Bytes "Hello")] := by
  refine ⟨pingHello_header_run, ?_, ?_⟩
  . rw [pingHello_header_run]
    decide
  . rw [pingHello_header_run]
    dsimp only
    rw [helloAfterPing_header_run]
    decide

/-- C9: an inbound close frame terminates the connection as soon as its
header is parsed: the payload length `pl` and the bytes after the header
are never consulted, and `onEnd` always receives app code
`CLOSED_BY_PEER` with status code 1000, whatever the payload contained. -/
theorem close_frame_ignores_payload (s : Conn) (buffer : List Nat) (s1 : Conn)
    (pl ni : Nat) (halive : s.isAlive = true)
    (hpp : parseHeaderPre s buffer = Sum.inr (s1, (OPCODE_CONNECTION_CLOSE, pl, ni))) :
    readDataFrameHeader s buffer =
      ({ s1 with isAlive := false },
       [Ev.wrote (createCloseFrame 1000 s1.toMaskOwnMessages randomKeyModel),
        Ev.socketEnd, Ev.endCb "CLOSED_BY_PEER" 1000]) ∧
    deliveredCallbacks (readDataFrameHeader s buffer).2 =
      [Ev.endCb "CLOSED_BY_PEER" 1000] := by
  have hAl : s1.isAlive = true := by
    rw [(parseHeaderPre_inr_proj s buffer s1 _ hpp).2.2.1]
    exact halive
  have h := readDataFrameHeader_close s buffer s1 pl ni hpp
  rw [h, dropConnection_of_alive s1 1000 "CLOSED_BY_PEER" hAl]
  exact ⟨rfl, rfl⟩

/-- C9 witness: a masked close frame whose two payload bytes would decode
to status code 0x03e8 = 1000 in any case never has them read — `onEnd`
gets `CLOSED_BY_PEER` with 1000 and the close sequence is written. -/
theorem close_frame_ignores_payload_witness :
    readDataFrameHeader serverConnection closeChunkWithCode =
      ({ serverConnection with
         isAlive := false
         isFinSet := true
         isMasked := true
         maskingKey := [0x00, 0x00, 0x00, 0x00] },
       [Ev.wrote [136, 4, 49, 48, 48, 48], Ev.socketEnd,
        Ev.endCb "CLOSED_BY_PEER" 1000]) ∧
    deliveredCallbacks (readDataFrameHeader serverConnection closeChunkWithCode).2 =
      [Ev.endCb "CLOSED_BY_PEER" 1000] := by
  have hp : parseHeaderPre serverConnection closeChunkWithCode =
      Sum.inr
        ({ serverConnection with
           isFinSet := true
           isMasked := true
           maskingKey := [0x00, 0x00, 0x00, 0x00] },
         (8, 2, 6)) := by decide
  have h := close_frame_ignores_payload serverConnection closeChunkWithCode _ 2 6 rfl hp
  constructor
  . rw [h.1]
    decide
  . exact h.2

/-- C10: the send operations are not guarded by liveness — after any
`dropConnection` (which leaves `isAlive` false) each send still serializes
its frame and writes it to the transport. -/
theorem sends_not_guarded_by_liveness (s : Conn) (c : Nat) (a string : String)
    (buffer maskingKey : List Nat) :
    (dropConnection s c a).1.isAlive = false ∧
    sendTextMessage (dropConnection s c a).1 string maskingKey =
      ((dropConnection s c a).1,
       [Ev.wrote (createTextFrame string
         (dropConnection s c a).1.toMaskOwnMessages maskingKey)]) ∧
    sendBinaryMessage (dropConnection s c a).1 buffer maskingKey =
      ((dropConnection s c a).1,
       [Ev.wrote (createBinaryFrame buffer
         (dropConnection s c a).1.toMaskOwnMessages maskingKey)]) ∧
    sendPing (dropConnection s c a).1 =
      ((dropConnection s c a).1,
       [Ev.wrote (frameDataPing (dropConnection s c a).1)]) := by
  exact ⟨dropConnection_isAlive s c a, rfl, rfl, rfl⟩

/-- C8: `createClientConnection` infers the default port from the parsed
URL scheme by comparing it with `https:` and using `433`: a `wss:` URL
with no explicit port gets port 80 (not 443), and even an `https:` URL
gets 433 (not 443); an explicit port always wins. -/
theorem inferred_port_defaults :
    inferredPort "ws:" Option.none = 80 ∧
    inferredPort "wss:" Option.none = 80 ∧
    inferredPort "https:" Option.none = 433 ∧
    ¬inferredPort "wss:" Option.none = 443 ∧
    ¬inferredPort "https:" Option.none = 443 ∧
    inferredPort "wss:" (Option.some 8443) = 8443 := by
  decide

/-! ### Bit-level facts about the serialized header bytes. -/

theorem byte0_and_fin (op : Nat) (h : op < 16) : (2 ^ 7 + op) &&& 2 ^ 7 = 2 ^ 7 := by
  rw [Nat.and_two_pow]
  have h2 : 2 ^ 7 + op = 2 ^ 7 * 1 + op := by omega
  rw [h2, Nat.testBit_mul_pow_two_add 1 (show op < 2 ^ 7 by omega)]
  simp

theorem byte0_and_rsv1 (op : Nat) (h : op < 16) : (2 ^ 7 + op) &&& 2 ^ 6 = 0 := by
  rw [Nat.and_two_pow]
  have h2 : 2 ^ 7 + op = 2 ^ 6 * 2 + op := by omega
  rw [h2, Nat.testBit_mul_pow_two_add 2 (show op < 2 ^ 6 by omega)]
  simp

theorem byte0_and_rsv2 (op : Nat) (h : op < 16) : (2 ^ 7 + op) &&& 2 ^ 5 = 0 := by
  rw [Nat.and_two_pow]
  have h2 : 2 ^ 7 + op = 2 ^ 5 * 4 + op := by omega
  rw [h2, Nat.testBit_mul_pow_two_add 4 (show op < 2 ^ 5 by omega)]
  simp

theorem byte0_and_rsv3 (op : Nat) (h : op < 16) : (2 ^ 7 + op) &&& 2 ^ 4 = 0 := by
  rw [Nat.and_two_pow]
  have h2 : 2 ^ 7 + op = 2 ^ 4 * 8 + op := by omega
  rw [h2, Nat.testBit_mul_pow_two_add 8 (show op < 2 ^ 4 by omega)]
  simp

theorem byte0_and_opcode (op : Nat) (h : op < 16) : (2 ^ 7 + op) &&& (2 ^ 4 - 1) = op := by
  rw [Nat.and_pow_two_sub_one_eq_mod]
  omega

theorem byte1_and_mask (n : Nat) (h : n < 128) : n &&& 2 ^ 7 = 0 := by
  rw [Nat.and_two_pow, Nat.testBit_lt_two_pow h]
  simp

theorem byte1_and_len (n : Nat) (h : n < 128) : n &&& (2 ^ 7 - 1) = n := by
  rw [Nat.and_pow_two_sub_one_eq_mod]
  omega

/-- C7: frame serialization chooses the smallest payload-length encoding
that fits (7-bit immediate for lengths 0-125, `126` plus two big-endian
bytes for 126-65535, `127` plus eight big-endian bytes above), and the
header parser decodes each of the three forms back to the original
payload length, with the header consuming 2, 4, or 10 bytes
respectively.  (Lengths stay below `2 ^ 53`, where Node's `Number`
conversion of the 64-bit read is exact.) -/
theorem length_encoding_roundtrip (s : Conn) (op : Nat) (payload : List Nat)
    (hop : op < 16) (hmask : s.isPeerMaskingRequired = false)
    (hlen : payload.length < 2 ^ 53) :
    (payload.length < 126 →
      createMessageFrame op payload false [] =
        [2 ^ 7 + op, payload.length] ++ payload) ∧
    (126 ≤ payload.length → payload.length < 2 ^ 16 →
      createMessageFrame op payload false [] =
        [2 ^ 7 + op, 126] ++ writeUInt16BE payload.length ++ payload) ∧
    (2 ^ 16 ≤ payload.length →
      createMessageFrame op payload false [] =
        [2 ^ 7 + op, 127] ++ writeBigUInt64BE payload.length ++ payload) ∧
    parseHeaderPre s (createMessageFrame op payload false []) =
      Sum.inr ({ s with isFinSet := true, isMasked := false },
        (op, payload.length,
         if payload.length < 126 then 2
         else if payload.length < 2 ^ 16 then 4 else 10)) := by
  have hframe7 : payload.length < 126 →
      createMessageFrame op payload false [] = [2 ^ 7 + op, payload.length] ++ payload := by
    intro hL
    simp [createMessageFrame, hL]
  have hframe16 : 126 ≤ payload.length → payload.length < 2 ^ 16 →
      createMessageFrame op payload false [] =
        [2 ^ 7 + op, 126] ++ writeUInt16BE payload.length ++ payload := by
    intro h1 h2
    simp [createMessageFrame, show ¬ payload.length < 126 by omega,
      show payload.length < 65536 by omega]
  have hframe64 : 2 ^ 16 ≤ payload.length →
      createMessageFrame op payload false [] =
        [2 ^ 7 + op, 127] ++ writeBigUInt64BE payload.length ++ payload := by
    intro h1
    simp [createMessageFrame, show ¬ payload.length < 126 by omega,
      show ¬ payload.length < 65536 by omega]
  refine ⟨hframe7, hframe16, hframe64, ?_⟩
  have hfin := byte0_and_fin op hop
  have hr1 := byte0_and_rsv1 op hop
  have hr2 := byte0_and_rsv2 op hop
  have hr3 := byte0_and_rsv3 op hop
  have hopc := byte0_and_opcode op hop
  by_cases hL7 : payload.length < 126
  . rw [hframe7 hL7, if_pos hL7]
    have hmb := byte1_and_mask payload.length (by omega)
    have hlb := byte1_and_len payload.length (by omega)
    have hbuf : [2 ^ 7 + op, payload.length] ++ payload
        = (2 ^ 7 + op) :: payload.length :: payload := rfl
    rw [hbuf]
    simp only [parseHeaderPre, List.getD_cons_zero, List.getD_cons_succ, List.length_cons]
    rw [if_neg (show ¬ payload.length + 1 + 1 < 2 by omega)]
    simp only [hr1, hr2, hr3, hopc, hmb, hlb, hfin]
    simp [hmask, show payload.length ≠ 126 by omega, show payload.length ≠ 127 by omega]
  . by_cases hL16 : payload.length < 2 ^ 16
    . rw [hframe16 (by omega) hL16, if_neg hL7, if_pos hL16]
      have hmb : (126 : Nat) &&& 2 ^ 7 = 0 := by decide
      have hlb : (126 : Nat) &&& (2 ^ 7 - 1) = 126 := by decide
      have hbuf : [2 ^ 7 + op, 126] ++ writeUInt16BE payload.length ++ payload
          = (2 ^ 7 + op) :: 126 :: (payload.length / 2 ^ 8 % 256) ::
            (payload.length % 256) :: payload := rfl
      rw [hbuf]
      simp only [parseHeaderPre, List.getD_cons_zero, List.getD_cons_succ, List.length_cons]
      rw [if_neg (show ¬ payload.length + 1 + 1 + 1 + 1 < 2 by omega)]
      simp only [hr1, hr2, hr3, hopc, hmb, hlb, hfin]
      simp [hmask, readUInt16BE,
        show ¬ payload.length + 1 + 1 + 1 + 1 < 4 by omega]
      omega
    . rw [hframe64 (by omega), if_neg hL7, if_neg hL16]
      have hmb : (127 : Nat) &&& 2 ^ 7 = 0 := by decide
      have hlb : (127 : Nat) &&& (2 ^ 7 - 1) = 127 := by decide
      have hbuf : [2 ^ 7 + op, 127] ++ writeBigUInt64BE payload.length ++ payload
          = (2 ^ 7 + op) :: 127 ::
            (payload.length / 2 ^ 56 % 256) :: (payload.length / 2 ^ 48 % 256) ::
            (payload.length / 2 ^ 40 % 256) :: (payload.length / 2 ^ 32 % 256) ::
            (payload.length / 2 ^ 24 % 256) :: (payload.length / 2 ^ 16 % 256) ::
            (payload.length / 2 ^ 8 % 256) :: (payload.length % 256) :: payload := rfl
      rw [hbuf]
      simp only [parseHeaderPre, List.getD_cons_zero, List.getD_cons_succ, List.length_cons]
      rw [if_neg (show ¬ payload.length + 1 + 1 + 1 + 1 + 1 + 1 + 1 + 1 + 1 + 1 < 2 by omega)]
      simp only [hr1, hr2, hr3, hopc, hmb, hlb, hfin]
      simp [hmask, readBigUInt64BE,
        show ¬ payload.length + 1 + 1 + 1 + 1 + 1 + 1 + 1 + 1 + 1 + 1 < 10 by omega]
      omega

/-- Witness for C7 at `op = 1`, payload `utf8Bytes "Hi"` (length 2), on a
client-role connection (peer masking not required). -/
theorem length_encoding_roundtrip_witness :
    ((1 : Nat) < 16 ∧ clientConnection.isPeerMaskingRequired = false ∧
      (utf8Bytes "Hi").length < 2 ^ 53) ∧
    (((utf8Bytes "Hi").length < 126 →
      createMessageFrame 1 (utf8Bytes "Hi") false [] =
        [2 ^ 7 + 1, (utf8Bytes "Hi").length] ++ utf8Bytes "Hi") ∧
    (126 ≤ (utf8Bytes "Hi").length → (utf8Bytes "Hi").length < 2 ^ 16 →
      createMessageFrame 1 (utf8Bytes "Hi") false [] =
        [2 ^ 7 + 1, 126] ++ writeUInt16BE (utf8Bytes "Hi").length ++ utf8Bytes "Hi") ∧
    (2 ^ 16 ≤ (utf8Bytes "Hi").length →
      createMessageFrame 1 (utf8Bytes "Hi") false [] =
        [2 ^ 7 + 1, 127] ++ writeBigUInt64BE (utf8Bytes "Hi").length ++ utf8Bytes "Hi") ∧
    parseHeaderPre clientConnection (createMessageFrame 1 (utf8Bytes "Hi") false []) =
      Sum.inr ({ clientConnection with isFinSet := true, isMasked := false },
        (1, (utf8Bytes "Hi").length,
         if (utf8Bytes "Hi").length < 126 then 2
         else if (utf8Bytes "Hi").length < 2 ^ 16 then 4 else 10))) :=
  ⟨⟨by decide, by decide, by decide⟩,
   length_encoding_roundtrip clientConnection 1 (utf8Bytes "Hi")
     (by decide) (by decide) (by decide)⟩
